import Mathlib

/-!
# Verification of the LubeAI incremental bulk-ingestion pipeline

Shallow embedding of the ingestion pipeline of the `lubeai` repository:

* `apps/reports/services/bulk_upload.py` (`ReportBulkUploadService`):
  value parsers (`_parse_integer`, `_parse_decimal`, `_parse_date`,
  `_parse_condition`, `_parse_hours_kms`), row extraction
  (`_extract_row_data`, `_extract_lab_analysis_data`), header filtering,
  duplicate-key filtering, entity resolution and bulk persistence
  (`process_dataframe`).
* `apps/etl/tasks.py` (`process_report_task`, `download_intertek_report_task`):
  the watermark (incremental) filter and the orchestration of the download.
* `apps/etl/services/intertek_client.py` (`IntertekAPIClient`):
  the authenticated-request retry state machine and the download wrapper.
* `apps/etl/utils.py` (`parse_polars_date`, `get_intertek_client`).

Cells of the spreadsheet are modelled as `Option String` (a polars cell is
either null or a value; the columns relevant to the claims are string
typed).  Python strings are modelled as `List Char`; the helpers below model
exactly the Python string operations the source uses (`strip`, `lower`,
`upper`, `replace`, `in`, `split`-by-format).  Python's `str.lower`/`upper`
are modelled on ASCII plus the Spanish accented letters that occur in the
source's data (`Á É Í Ó Ú Ñ Ü`); no other code points are case-mapped.
-/

/-! ## Python string primitives -/

/-- Whitespace characters stripped by Python's `str.strip()` (ASCII part). -/
def isPySpace (c : Char) : Bool :=
  c = ' ' || c = '\t' || c = '\n' || c = '\x0d' || c = '\x0b' || c = '\x0c'

/-- `str.strip()`: remove leading and trailing whitespace. -/
def pyStrip (s : List Char) : List Char :=
  ((s.dropWhile isPySpace).reverse.dropWhile isPySpace).reverse

/-- Python `str.lower` on one character: ASCII letters plus the Spanish
accented capitals that can occur in the source data. -/
def pyLowerChar (c : Char) : Char :=
  if c = 'Á' then 'á' else if c = 'É' then 'é'
  else if c = 'Í' then 'í' else if c = 'Ó' then 'ó'
  else if c = 'Ú' then 'ú' else if c = 'Ñ' then 'ñ'
  else if c = 'Ü' then 'ü' else c.toLower

/-- Python `str.upper` on one character (same modelled alphabet). -/
def pyUpperChar (c : Char) : Char :=
  if c = 'á' then 'Á' else if c = 'é' then 'É'
  else if c = 'í' then 'Í' else if c = 'ó' then 'Ó'
  else if c = 'ú' then 'Ú' else if c = 'ñ' then 'Ñ'
  else if c = 'ü' then 'Ü' else c.toUpper

def pyLower (s : List Char) : List Char := s.map pyLowerChar

def pyUpper (s : List Char) : List Char := s.map pyUpperChar

/-- Scanner for `pyReplace`; the fuel argument (always at least the length
of the scanned list) makes the recursion structural so that the kernel can
evaluate it. -/
def pyReplaceGo (pat repl : List Char) : Nat → List Char → List Char
  | 0, s => s
  | _ + 1, [] => []
  | fuel + 1, c :: cs =>
    if pat.isPrefixOf (c :: cs) then
      repl ++ pyReplaceGo pat repl fuel (cs.drop (pat.length - 1))
    else
      c :: pyReplaceGo pat repl fuel cs

/-- Python `str.replace(pat, repl)`: left-to-right, non-overlapping.
The source never calls `replace` with an empty pattern, so the empty-pattern
case (where Python would interleave `repl` everywhere) returns `s`
unchanged. -/
def pyReplace (pat repl : List Char) (s : List Char) : List Char :=
  if pat = [] then s else pyReplaceGo pat repl s.length s

/-- Python `pat in s` (substring containment). -/
def pyContains (pat : List Char) : List Char → Bool
  | [] => pat.isEmpty
  | c :: cs => pat.isPrefixOf (c :: cs) || pyContains pat cs

/-- Split a character list on a separator character (every occurrence). -/
def splitOnChar (sep : Char) : List Char → List (List Char)
  | [] => [[]]
  | c :: cs =>
    match splitOnChar sep cs with
    | [] => [[]]
    | f :: rest => if c = sep then [] :: f :: rest else (c :: f) :: rest

/-! ## Cell values and Python truthiness

A spreadsheet cell is `Option String`: `none` is a polars null. -/

abbrev Cell := Option String

/-- Python truthiness of a cell: `None` and `""` are falsy. -/
def pyTruthy : Cell → Bool
  | none => false
  | some s => !(s = "")

/-! ## Number parsing (`_parse_integer`, `_parse_decimal`)

Python's `float(...)` is modelled on plain decimal literals
`[+-]? digits [. digits]?` (also `.digits` and `digits.`); the exponent,
underscore, `inf`/`nan` forms accepted by Python never occur in this data
and are not modelled (they would make a handful of garbage strings parse
that the model rejects; no claim depends on them). -/

def charDigitVal (c : Char) : Nat := c.toNat - 48

def digitsToNat (l : List Char) : Nat :=
  l.foldl (fun acc c => 10 * acc + charDigitVal c) 0

/-- An unsigned decimal literal (`"12"`, `"12.5"`, `".5"`, `"5."`); the
value `intpart.fracpart` is the rational
`(intpart * 10 ^ |fracpart| + fracpart) / 10 ^ |fracpart|`. -/
def parseUnsignedDec (l : List Char) : Option Rat :=
  match splitOnChar '.' l with
  | [a] =>
    if a ≠ [] ∧ a.all Char.isDigit then some (mkRat (digitsToNat a) 1) else none
  | [a, b] =>
    if (a ++ b) ≠ [] ∧ a.all Char.isDigit ∧ b.all Char.isDigit then
      some (mkRat (digitsToNat a * 10 ^ b.length + digitsToNat b) (10 ^ b.length))
    else none
  | _ => none

/-- Python `float(s)` on a stripped decimal literal, with the sign. -/
def pyFloat (l : List Char) : Option Rat :=
  match pyStrip l with
  | '+' :: rest => parseUnsignedDec rest
  | '-' :: rest => (parseUnsignedDec rest).map (fun q => -q)
  | rest => parseUnsignedDec rest

/-- `int(float_value)`: truncation toward zero. -/
def truncRat (q : Rat) : Int :=
  if 0 ≤ q then ((q.num.toNat / q.den : Nat) : Int)
  else -(((-q).num.toNat / q.den : Nat) : Int)

/-- `ReportBulkUploadService._parse_integer`: falsy or `"-"` input yields
`0`; otherwise strip + lowercase, delete `"horas"`, `"km"` and `","`,
strip again, parse as float and truncate to an integer; any parse failure
yields `0`. -/
def pyParseInteger (v : Cell) : Int :=
  if !pyTruthy v ∨ v = some "-" then 0
  else
    match v with
    | none => 0
    | some s =>
      let t := pyStrip (pyLower s.data)
      let t := pyStrip (pyReplace (",".data) [] (pyReplace ("km".data) []
        (pyReplace ("horas".data) [] t)))
      match pyFloat t with
      | some q => truncRat q
      | none => 0

/-- `ReportBulkUploadService._parse_decimal`: falsy or `"-"` input yields
null; otherwise strip, delete `","`, parse as float; parse failure yields
null. -/
def pyParseDecimal (v : Cell) : Option Rat :=
  if !pyTruthy v ∨ v = some "-" then none
  else
    match v with
    | none => none
    | some s =>
      let t := pyReplace (",".data) [] (pyStrip s.data)
      pyFloat t

/-! ## Condition normalisation (`_parse_condition`) -/

/-- `apps/reports/choices.py`: `ReportCondition` (note the fourth member
`SEVERE`, which the bulk-upload parser never produces). -/
inductive ReportCondition where
  | NORMAL
  | CAUTION
  | CRITICAL
  | SEVERE
deriving DecidableEq, Repr

/-- The `condition_mapping` dict of `_parse_condition`, in source order. -/
def conditionMapping : List (List Char × ReportCondition) :=
  [("normal".data, .NORMAL),
   ("caution".data, .CAUTION),
   ("precaution".data, .CAUTION),
   ("precaucion".data, .CAUTION),
   ("critical".data, .CRITICAL),
   ("critico".data, .CRITICAL),
   ("alerta".data, .CRITICAL)]

/-- `ReportBulkUploadService._parse_condition`: falsy input yields NORMAL;
otherwise strip + lowercase and look the string up in the mapping, with
NORMAL as the default for unmapped strings. -/
def pyParseCondition (v : Cell) : ReportCondition :=
  if !pyTruthy v then .NORMAL
  else
    match v with
    | none => .NORMAL
    | some s =>
      let key := pyLower (pyStrip s.data)
      match conditionMapping.find? (fun p => p.1 = key) with
      | some p => p.2
      | none => .NORMAL

/-! ## Date parsing (`_parse_date`, `parse_polars_date`)

`datetime.strptime` with one of the four fixed formats succeeds exactly when
the string splits on the format's separator into the expected number of
all-digit fields (day and month fields of one or two digits, the year field
of exactly four digits, matching CPython's `_strptime` regexes) and the
three numbers form a valid proleptic-Gregorian calendar date with year in
`1..9999`.  The Django `parse_date` fallback accepts the ISO form
`YYYY-MM-DD` (with one- or two-digit month and day), which the third
`strptime` format already accepts, so in this model the fallback adds
nothing; its further ISO-8601 forms never occur in this data and are not
modelled. -/

/-- A Python `datetime.date` value. -/
structure PyDate where
  year : Nat
  month : Nat
  day : Nat
deriving DecidableEq, Repr

/-- Strict calendar order on dates (used by the watermark comparison). -/
def dateLtB (a b : PyDate) : Bool :=
  a.year < b.year ||
  (a.year = b.year && (a.month < b.month ||
    (a.month = b.month && a.day < b.day)))

def isLeapYear (y : Nat) : Bool :=
  y % 4 = 0 && (y % 100 ≠ 0 || y % 400 = 0)

def daysInMonth (y m : Nat) : Nat :=
  if m = 2 then (if isLeapYear y then 29 else 28)
  else if m = 4 ∨ m = 6 ∨ m = 9 ∨ m = 11 then 30
  else 31

/-- Calendar validity as enforced by `datetime.date` (year `1..9999`). -/
def validDate (y m d : Nat) : Bool :=
  1 ≤ y && y ≤ 9999 && 1 ≤ m && m ≤ 12 && 1 ≤ d && d ≤ daysInMonth y m

/-- A one- or two-digit all-digit field (`%d` / `%m`). -/
def fieldNat2 (l : List Char) : Option Nat :=
  if l ≠ [] ∧ l.length ≤ 2 ∧ l.all Char.isDigit then some (digitsToNat l)
  else none

/-- A four-digit all-digit field (`%Y`). -/
def fieldNat4 (l : List Char) : Option Nat :=
  if l.length = 4 ∧ l.all Char.isDigit then some (digitsToNat l) else none

/-- `strptime` with format `%d<sep>%m<sep>%Y`. -/
def parseDMY (sep : Char) (s : List Char) : Option PyDate :=
  match splitOnChar sep s with
  | [df, mf, yf] =>
    match fieldNat2 df, fieldNat2 mf, fieldNat4 yf with
    | some d, some m, some y =>
      if validDate y m d then some ⟨y, m, d⟩ else none
    | _, _, _ => none
  | _ => none

/-- `strptime` with format `%Y-%m-%d`. -/
def parseYMD (sep : Char) (s : List Char) : Option PyDate :=
  match splitOnChar sep s with
  | [yf, mf, df] =>
    match fieldNat4 yf, fieldNat2 mf, fieldNat2 df with
    | some y, some m, some d =>
      if validDate y m d then some ⟨y, m, d⟩ else none
    | _, _, _ => none
  | _ => none

/-- `strptime` with format `%m/%d/%Y`. -/
def parseMDY (sep : Char) (s : List Char) : Option PyDate :=
  match splitOnChar sep s with
  | [mf, df, yf] =>
    match fieldNat2 mf, fieldNat2 df, fieldNat4 yf with
    | some m, some d, some y =>
      if validDate y m d then some ⟨y, m, d⟩ else none
    | _, _, _ => none
  | _ => none

/-- The Django `parse_date` fallback, modelled as the ISO `YYYY-MM-DD`
form (identical to the third `strptime` format above). -/
def djangoParseDate (s : List Char) : Option PyDate := parseYMD '-' s

/-- The format cascade of `_parse_date`: `%d/%m/%Y`, `%d-%m-%Y`,
`%Y-%m-%d`, `%m/%d/%Y`, then the Django fallback; the first success
wins. -/
def pyParseDateStr (s : List Char) : Option PyDate :=
  match parseDMY '/' s with
  | some d => some d
  | none =>
    match parseDMY '-' s with
    | some d => some d
    | none =>
      match parseYMD '-' s with
      | some d => some d
      | none =>
        match parseMDY '/' s with
        | some d => some d
        | none => djangoParseDate s

/-- `ReportBulkUploadService._parse_date`: falsy input yields no date;
otherwise convert to string, strip, and run the format cascade.
`apps/etl/utils.parse_polars_date` has the same semantics (its extra
`try/except` around the Django fallback never changes the result). -/
def pyParseDate (v : Cell) : Option PyDate :=
  if !pyTruthy v then none
  else
    match v with
    | none => none
    | some s => pyParseDateStr (pyStrip s.data)

/-- `apps/etl/utils.parse_polars_date` (used by the watermark stage):
line-for-line the same cascade as `_parse_date`. -/
def parsePolarsDate (v : Cell) : Option PyDate := pyParseDate v

/-! ### Rendering a date in the four supported formats -/

/-- Two-digit zero-padded rendering (`%d` / `%m` of `strftime`; day and
month are always below 100). -/
def pad2 (n : Nat) : List Char := [Nat.digitChar (n / 10), Nat.digitChar (n % 10)]

/-- Four-digit zero-padded rendering (`%Y` for years `1..9999`). -/
def pad4 (n : Nat) : List Char :=
  [Nat.digitChar (n / 1000), Nat.digitChar (n / 100 % 10),
   Nat.digitChar (n / 10 % 10), Nat.digitChar (n % 10)]

/-- Render a date as `DD<sep>MM<sep>YYYY`. -/
def fmtDMY (sep : Char) (dt : PyDate) : List Char :=
  pad2 dt.day ++ sep :: (pad2 dt.month ++ sep :: pad4 dt.year)

/-- Render a date as `YYYY-MM-DD`. -/
def fmtYMD (dt : PyDate) : List Char :=
  pad4 dt.year ++ '-' :: (pad2 dt.month ++ '-' :: pad2 dt.day)

/-- Render a date as `MM/DD/YYYY`. -/
def fmtMDY (dt : PyDate) : List Char :=
  pad2 dt.month ++ '/' :: (pad2 dt.day ++ '/' :: pad4 dt.year)

/-! ## Rows and extraction (`_extract_row_data`)

A spreadsheet row is the ordered list of its cells; `_safe_get_value` is
access by column index, with `none` for a missing column. -/

abbrev Row := List Cell

/-- `_safe_get_value(row, index)`. -/
def cellAt (row : Row) (i : Nat) : Cell := (row.get? i).join

/-- The transport test of `_extract_row_data`:
`"TRANSPORTES" in str(machine_name).upper() if machine_name else False`. -/
def isTransportName (machineName : Cell) : Bool :=
  if pyTruthy machineName then
    match machineName with
    | none => false
    | some s => pyContains ("TRANSPORTES".data) (pyUpper s.data)
  else false

/-- `_parse_hours_kms(value, is_transport)`: `(0, parsed)` for transport
machines, `(parsed, 0)` otherwise. -/
def parseHoursKms (v : Cell) (isTransport : Bool) : Int × Int :=
  let parsed := pyParseInteger v
  if isTransport then (0, parsed) else (parsed, 0)

/-- The report-field half of one extracted row (`report_data`), before
entity resolution. -/
structure ReportData where
  labNumber : Cell
  organizationName : Cell
  machineName : Cell
  componentName : Cell
  serialNumberCode : Cell
  lubricant : String
  sampleDate : Option PyDate
  machineHours : Int
  machineKms : Int
  lubricantHours : Int
  lubricantKms : Int
  receptionDate : Option PyDate
  reportDate : Option PyDate
  filterChange : String
  oilChange : String
  perNumber : String
  others : String
  condition : ReportCondition
  notes : String
deriving DecidableEq, Repr

/-- `x or ""` on a cell (the string fields of `report_data`). -/
def cellOrEmpty (v : Cell) : String := v.getD ""

/-- Kind of a lab-analysis column, per the field lists in
`_extract_lab_analysis_data`. -/
inductive LabFieldKind where
  | strF
  | decF
  | intF
deriving DecidableEq, Repr

/-- `LAB_ANALYSIS_COLUMN_INDICES` together with each field's parser kind
(string fields and decimal fields are the two explicit lists in
`_extract_lab_analysis_data`; everything else is an integer field). -/
def labAnalysisColumns : List (String × Nat × LabFieldKind) :=
  [("water_crackle", 18, .strF),
   ("water_distillation", 19, .decF),
   ("viscosity_40c", 20, .decF),
   ("viscosity_100c", 21, .decF),
   ("compatibility", 22, .strF),
   ("tbn", 23, .decF),
   ("tan", 24, .decF),
   ("oxidation", 25, .decF),
   ("soot", 26, .decF),
   ("nitration", 27, .decF),
   ("sulfation", 28, .decF),
   ("glycol", 29, .decF),
   ("fuel_dilution", 30, .decF),
   ("water_ftir", 31, .decF),
   ("pq_index", 32, .intF),
   ("particle_count_iso", 33, .strF),
   ("iron_fe", 34, .intF),
   ("chromium_cr", 35, .intF),
   ("lead_pb", 36, .intF),
   ("copper_cu", 37, .intF),
   ("tin_sn", 38, .intF),
   ("aluminum_al", 39, .intF),
   ("nickel_ni", 40, .intF),
   ("silver_ag", 41, .intF),
   ("silicon_si", 42, .intF),
   ("boron_b", 43, .intF),
   ("sodium_na", 44, .intF),
   ("magnesium_mg", 45, .intF),
   ("molybdenum_mo", 46, .intF),
   ("titanium_ti", 47, .intF),
   ("vanadium_v", 48, .intF),
   ("manganese_mn", 49, .intF),
   ("potassium_k", 50, .intF),
   ("phosphorus_p", 51, .intF),
   ("zinc_zn", 52, .intF),
   ("calcium_ca", 53, .intF),
   ("barium_ba", 54, .intF),
   ("cadmium_cd", 55, .intF),
   ("visual_appearance", 56, .strF)]

/-- A parsed lab-analysis cell value. -/
inductive LabValue where
  | vStr (s : String)
  | vDec (q : Option Rat)
  | vInt (n : Int)
deriving DecidableEq, Repr

/-- `str(raw_value) if raw_value else ""` for the string fields. -/
def labStringValue (v : Cell) : String :=
  if pyTruthy v then cellOrEmpty v else ""

/-- `_extract_lab_analysis_data(row)`: the 39 analysis fields in dict
(insertion) order. -/
def extractLabAnalysisData (row : Row) : List (String × LabValue) :=
  labAnalysisColumns.map (fun f =>
    let raw := cellAt row f.2.1
    (f.1,
      match f.2.2 with
      | .strF => .vStr (labStringValue raw)
      | .decF => .vDec (pyParseDecimal raw)
      | .intF => .vInt (pyParseInteger raw)))

/-- `_extract_row_data(row, row_num)`: the transport classification is
computed once from the machine-name column (index 3) and routes both the
machine usage pair (index 8) and the lubricant usage pair (index 9). -/
def extractRowData (row : Row) : ReportData × List (String × LabValue) :=
  let machineName := cellAt row 3
  let isTransport := isTransportName machineName
  let machinePair := parseHoursKms (cellAt row 8) isTransport
  let lubricantPair := parseHoursKms (cellAt row 9) isTransport
  (⟨cellAt row 1, cellAt row 2, machineName, cellAt row 4, cellAt row 5,
    cellOrEmpty (cellAt row 6), pyParseDate (cellAt row 7),
    machinePair.1, machinePair.2, lubricantPair.1, lubricantPair.2,
    pyParseDate (cellAt row 10), pyParseDate (cellAt row 11),
    cellOrEmpty (cellAt row 12), cellOrEmpty (cellAt row 13),
    cellOrEmpty (cellAt row 14), cellOrEmpty (cellAt row 15),
    pyParseCondition (cellAt row 16), cellOrEmpty (cellAt row 17)⟩,
   extractLabAnalysisData row)

/-! ## Reference entities and resolution
(`_resolve_organization_cached`, `_resolve_machine_cached`,
`_resolve_component_cached`)

The reference tables are read-only during a run, so the per-run caches of
the service are pure memoisation and are not modelled; each resolver is the
underlying Django lookup.  A resolver returns `Except (message, field) id`:
`field = "entity_resolution"` corresponds to the `ValidationError` branch of
`process_dataframe`, `field = "unknown"` to an exception that only the outer
generic handler catches (`MultipleObjectsReturned` from the organization or
component lookup, which the service does not handle). -/

structure OrgRec where
  id : Nat
  name : String
  isActive : Bool
deriving DecidableEq, Repr

structure MachineRec where
  id : Nat
  orgId : Option Nat
  name : String
  serial : Option String
  isActive : Bool
deriving DecidableEq, Repr

structure ComponentRec where
  id : Nat
  machineId : Nat
  typeName : String
  isActive : Bool
deriving DecidableEq, Repr

structure RefDB where
  orgs : List OrgRec
  machines : List MachineRec
  components : List ComponentRec
deriving DecidableEq, Repr

/-- Django `field__iexact=value` for a nullable field: `None` matches
`IS NULL`, a string matches case-insensitively. -/
def iexactOptB (f : Option String) (v : Cell) : Bool :=
  match v, f with
  | none, none => true
  | none, some _ => false
  | some s, some fs => pyLower fs.data == pyLower s.data
  | some _, none => false

/-- `_resolve_organization_cached`: falsy name resolves to no organization;
otherwise `Organization.objects.get(name__iexact=name, is_active=True)`. -/
def resolveOrganization (ref : RefDB) (name : Cell) :
    Except (String × String) (Option Nat) :=
  if !pyTruthy name then .ok none
  else
    let s := name.getD ""
    match ref.orgs.filter (fun o =>
        o.isActive && (pyLower o.name.data == pyLower s.data)) with
    | [o] => .ok (some o.id)
    | [] => .error ("Organization " ++ s ++ " not found", "entity_resolution")
    | _ => .error ("MultipleObjectsReturned: Organization " ++ s, "unknown")

/-- `_resolve_machine_cached`: falsy name resolves to no machine; otherwise
`Machine.objects.get(organization=org, name__iexact=..,
serial_number__iexact=.., is_active=True)`; both `DoesNotExist` and
`MultipleObjectsReturned` yield the `ValidationError` "not found". -/
def resolveMachine (ref : RefDB) (name serial : Cell) (org : Option Nat) :
    Except (String × String) (Option Nat) :=
  if !pyTruthy name then .ok none
  else
    let s := name.getD ""
    match ref.machines.filter (fun m =>
        m.isActive && m.orgId = org && (pyLower m.name.data == pyLower s.data)
          && iexactOptB m.serial serial) with
    | [m] => .ok (some m.id)
    | _ => .error ("Machine " ++ s ++ " not found", "entity_resolution")

/-- `_resolve_component_cached`: falsy name or no machine resolves to no
component; the name is cleaned (`replace("  ", " ").strip()`) before
`Component.objects.get(machine=.., type__name__iexact=.., is_active=True)`;
only `DoesNotExist` is handled (`MultipleObjectsReturned` escapes to the
generic row handler). -/
def resolveComponent (ref : RefDB) (name : Cell) (machine : Option Nat) :
    Except (String × String) (Option Nat) :=
  if !pyTruthy name || machine.isNone then .ok none
  else
    match machine with
    | none => .ok none
    | some mid =>
      let cleaned : String :=
        ⟨pyStrip (pyReplace ("  ".data) (" ".data) ((name.getD "").data))⟩
      match ref.components.filter (fun c =>
          c.isActive && c.machineId = mid
            && (pyLower c.typeName.data == pyLower cleaned.data)) with
      | [c] => .ok (some c.id)
      | [] => .error ("Component " ++ cleaned ++ " not found",
          "entity_resolution")
      | _ => .error ("MultipleObjectsReturned: Component " ++ cleaned,
          "unknown")

/-! ## Persisted state and bulk creation

`apps/reports/models.py` is not part of the source tree; the `Report` and
`LabAnalysis` records and the storage constraint are therefore modelled
from the spec.

Modelled from the spec: `lab_number` is the unique, required natural key of
`Report` (spec section 3, "Identity: `lab_number` (unique, required)"), so a
bulk insert violating that uniqueness fails as a whole; `LabAnalysis` holds
the parsed analysis payload of exactly one `Report` (1:1).  Inside
`transaction.atomic()` a failure of either bulk insert leaves storage
unchanged; this is the only modelled failure mode of the bulk write. -/

/-- A persisted `Report` row (the fields `_bulk_create_reports` sets;
audit fields `created_by`/`modified_by` carry no claim content and are
omitted). -/
structure Report where
  labNumber : String
  organization : Option Nat
  machine : Option Nat
  component : Option Nat
  lubricant : String
  lubricantHours : Int
  lubricantKms : Int
  machineHours : Int
  machineKms : Int
  serialNumberCode : Cell
  sampleDate : Option PyDate
  perNumber : String
  receptionDate : Option PyDate
  reportDate : Option PyDate
  filterChange : String
  oilChange : String
  others : String
  condition : ReportCondition
  notes : String
  isActive : Bool
deriving DecidableEq, Repr

/-- A persisted `LabAnalysis` row, referencing its report by the report's
natural key. -/
structure LabAnalysis where
  reportLab : String
  data : List (String × LabValue)
deriving DecidableEq, Repr

structure ReportsDB where
  reports : List Report
  analyses : List LabAnalysis
deriving DecidableEq, Repr

def emptyReportsDB : ReportsDB := ⟨[], []⟩

def dbLabNumbers (db : ReportsDB) : List String := db.reports.map (·.labNumber)

/-! ## `process_dataframe` -/

/-- One row-level error entry of the results dictionary. -/
structure RowError where
  rowNumber : Option Nat
  labNumber : Cell
  message : String
  field : String
deriving DecidableEq, Repr

/-- The results dictionary (`created`, `updated`, `errors`, `skipped`). -/
structure Results where
  created : Nat
  updated : Nat
  errors : List RowError
  skipped : Nat
deriving DecidableEq, Repr

/-- `pl.any_horizontal(pl.all().is_not_null())`: a row survives iff some
cell is non-null. -/
def rowNonEmpty (row : Row) : Bool := row.any (·.isSome)

/-- The `title_patterns` list of `_filter_header_rows`. -/
def titlePatterns : List String :=
  ["REPORTE", "REPORT", "LAB", "LABORATORIO", "LABORATORY",
   "NUMERO", "NUMBER", "N°"]

/-- One pass of `_filter_header_rows`: the row survives all eight pattern
filters iff its first cell is non-null (polars: `~contains` of a null cell
is null, and `filter` drops null masks) and its uppercased first cell
contains none of the patterns. -/
def headerKeep (row : Row) : Bool :=
  match cellAt row 0 with
  | none => false
  | some s => titlePatterns.all (fun p => !pyContains p.data (pyUpper s.data))

/-- `_extract_lab_numbers`: column 1, nulls dropped, then only values that
are truthy and strip to something non-empty. -/
def extractLabNumbers (rows : List Row) : List String :=
  (rows.filterMap (fun r => cellAt r 1)).filter
    (fun s => !(s = "") && !(pyStrip s.data).isEmpty)

/-- `_get_existing_lab_numbers`: the set of stored lab numbers occurring in
the given list (empty query for an empty list); modelled as a deduplicated
list. -/
def existingLabNumbers (db : ReportsDB) (labNumbers : List String) :
    List String :=
  if labNumbers = [] then []
  else ((dbLabNumbers db).filter (fun l => labNumbers.contains l)).dedup

/-- The duplicate filter `~pl.col("column_1").is_in(existing)`: skipped
entirely when no incoming lab number already exists; when it runs, a null
lab-number cell gives a null mask and the row is dropped (polars null
propagation). -/
def dupKeep (existing : List String) (row : Row) : Bool :=
  match cellAt row 1 with
  | none => false
  | some s => !existing.contains s

def filterDuplicates (existing : List String) (rows : List Row) : List Row :=
  if existing = [] then rows else rows.filter (dupKeep existing)

/-- Error-record assembly for a failed resolution, per the two handlers in
the row loop of `process_dataframe`: the `ValidationError` handler records
the row's lab number under `entity_resolution`; the generic handler records
no lab number under `unknown`. -/
def mkResolutionError (rowNum : Nat) (rd : ReportData) (e : String × String) :
    RowError :=
  if e.2 = "entity_resolution" then ⟨some rowNum, rd.labNumber, e.1, e.2⟩
  else ⟨some rowNum, none, e.1, "unknown"⟩

/-- Build the `Report` to be bulk-created from one extracted row and its
resolved entity ids (`_bulk_create_reports`). -/
def mkReport (rd : ReportData) (org mach comp : Option Nat) : Report :=
  ⟨rd.labNumber.getD "", org, mach, comp, rd.lubricant,
   rd.lubricantHours, rd.lubricantKms, rd.machineHours, rd.machineKms,
   rd.serialNumberCode, rd.sampleDate, rd.perNumber,
   rd.receptionDate, rd.reportDate, rd.filterChange, rd.oilChange,
   rd.others, rd.condition, rd.notes, true⟩

/-- One iteration of the row loop of `process_dataframe`: extraction,
the lab-number requirement, and the three entity resolutions. -/
def processRow (ref : RefDB) (rowNum : Nat) (row : Row) :
    Except RowError (Report × List (String × LabValue)) :=
  let rd := (extractRowData row).1
  let ld := (extractRowData row).2
  if !pyTruthy rd.labNumber then
    .error ⟨some rowNum, none, "Lab Number is required", "lab_number"⟩
  else
    match resolveOrganization ref rd.organizationName with
    | .error e => .error (mkResolutionError rowNum rd e)
    | .ok org =>
      match resolveMachine ref rd.machineName rd.serialNumberCode org with
      | .error e => .error (mkResolutionError rowNum rd e)
      | .ok mach =>
        match resolveComponent ref rd.componentName mach with
        | .error e => .error (mkResolutionError rowNum rd e)
        | .ok comp => .ok (mkReport rd org mach comp, ld)

/-- The row loop (`enumerate(df.iter_rows(named=True), start=3)`): each row
either contributes a report/analysis pair or a row error; row-level
failures never abort the loop. -/
def processRows (ref : RefDB) (rowNum : Nat) :
    List Row → List (Report × List (String × LabValue)) × List RowError
  | [] => ([], [])
  | r :: rs =>
    let rest := processRows ref (rowNum + 1) rs
    match processRow ref rowNum r with
    | .ok p => (p :: rest.1, rest.2)
    | .error e => (rest.1, e :: rest.2)

/-- Boolean no-duplicates check on a list of lab numbers. -/
def labsNodupB : List String → Bool
  | [] => true
  | l :: ls => !ls.contains l && labsNodupB ls

/-- Success condition of the bulk insert: the new lab numbers are pairwise
distinct and none is already stored (the modelled unique constraint). -/
def bulkInsertOk (db : ReportsDB) (labs : List String) : Bool :=
  labsNodupB labs && labs.all (fun l => !(dbLabNumbers db).contains l)

/-- The single batch-level error entry appended when the bulk creation
fails (`field = "bulk_create"`, both row number and lab number null). -/
def bulkError : RowError := ⟨none, none, "Bulk creation failed", "bulk_create"⟩

/-- The `transaction.atomic()` block of `process_dataframe`: skipped for an
empty batch; on success both bulk inserts commit together (analyses are
built by zipping the created reports with their payloads, here the paired
list); on failure storage is unchanged, `created` is reset to `0` and one
batch-level error is reported. -/
def persistBatch (db : ReportsDB)
    (pairs : List (Report × List (String × LabValue))) :
    ReportsDB × Nat × List RowError :=
  if pairs = [] then (db, 0, [])
  else if bulkInsertOk db (pairs.map (fun p => p.1.labNumber)) then
    ({ reports := db.reports ++ pairs.map Prod.fst,
       analyses := db.analyses ++ pairs.map (fun p => ⟨p.1.labNumber, p.2⟩) },
     pairs.length, [])
  else (db, 0, [bulkError])

/-- `ReportBulkUploadService.process_dataframe`. -/
def processDataframe (ref : RefDB) (db : ReportsDB) (rows : List Row) :
    ReportsDB × Results :=
  let rows1 := rows.filter rowNonEmpty
  if rows1 = [] then (db, ⟨0, 0, [], 0⟩)
  else
    let rows2 := rows1.filter headerKeep
    if rows2 = [] then (db, ⟨0, 0, [], 0⟩)
    else
      let labNumbers := extractLabNumbers rows2
      let existing := existingLabNumbers db labNumbers
      let skipped := existing.length
      let rows3 := filterDuplicates existing rows2
      if rows3 = [] then (db, ⟨0, 0, [], skipped⟩)
      else
        let pr := processRows ref 3 rows3
        let pb := persistBatch db pr.1
        (pb.1, ⟨pb.2.1, 0, pr.2 ++ pb.2.2, skipped⟩)

/-! ## `process_report_task` (watermark stage and orchestration) -/

/-- The watermark: the greatest non-null `sample_date` among stored reports
(`order_by("-sample_date").first()` over `sample_date__isnull=False`). -/
def maxSampleDate (db : ReportsDB) : Option PyDate :=
  (db.reports.filterMap (·.sampleDate)).foldl (fun acc d =>
    match acc with
    | none => some d
    | some m => if dateLtB m d then some d else some m) none

/-- The watermark filter `parsed_sample_date > last.sample_date`: a row
survives iff its parsed sample date exists and is strictly greater (a null
parse gives a null mask and the row is dropped). -/
def watermarkKeep (wm : PyDate) (row : Row) : Bool :=
  match parsePolarsDate (cellAt row 7) with
  | some d => dateLtB wm d
  | none => false

/-- The incremental stage of `process_report_task`: applied only when some
stored report has a non-null sample date (`if last_report:`). -/
def watermarkStage (db : ReportsDB) (rows : List Row) : List Row :=
  match maxSampleDate db with
  | none => rows
  | some wm => rows.filter (watermarkKeep wm)

/-- The dictionary returned by `process_report_task`. -/
structure TaskResult where
  status : String
  created : Nat
  updated : Nat
  errors : List RowError
  skipped : Nat
  totalRows : Nat
  filteredRows : Nat
deriving DecidableEq, Repr

/-- `process_report_task`, from the point where the spreadsheet has been
loaded and sliced into data rows: watermark filter, early return when
nothing survives, otherwise `process_dataframe` and the status rule
(errors present: `partial_success` iff something was created, else
`error`; no errors: `success`). -/
def processReportTask (ref : RefDB) (db : ReportsDB) (rows : List Row) :
    ReportsDB × TaskResult :=
  let totalRows := rows.length
  let filtered := watermarkStage db rows
  if filtered = [] then
    (db, ⟨"success", 0, 0, [], 0, totalRows, 0⟩)
  else
    let out := processDataframe ref db filtered
    let status :=
      if out.2.errors ≠ [] then
        (if 0 < out.2.created then "partial_success" else "error")
      else "success"
    (out.1, ⟨status, out.2.created, out.2.updated, out.2.errors,
      out.2.skipped, totalRows, filtered.length⟩)

/-! ## The Intertek API client (`intertek_client.py`)

The network is a script: `authResult k` is the outcome of the `k`-th login
call (`some token` on success, `none` when `_authenticate` raises
`AuthenticationError`), `reqResult k` the outcome of the `k`-th
`Session.request` call.  The token cache holds `some token` exactly when
`_get_cached_token` would return a still-valid token (the 5-minute expiry
buffer is folded into the cache being empty or not; claim C8 does not
depend on the expiry arithmetic). -/

/-- The error taxonomy of `apps/etl/exceptions.py`. -/
inductive EtlError where
  | config (msg : String)
  | auth (msg : String)
  | tokenExpired (msg : String)
  | apiRequest (msg : String)
  | fileDownload (msg : String)
deriving DecidableEq, Repr

/-- Outcome of one `Session.request` call: 2xx, an HTTP error status, or a
non-HTTP `RequestException`. -/
inductive ReqOutcome where
  | httpOk
  | httpStatus (code : Nat)
  | netFail
deriving DecidableEq, Repr

structure NetScript where
  authResult : Nat → Option String
  reqResult : Nat → ReqOutcome

/-- Observable client state: the token cache, how many login calls and
requests have happened, and the bearer tokens attached to the requests in
order. -/
structure ClientState where
  cache : Option String
  nAuth : Nat
  nReq : Nat
  sentTokens : List String
deriving Repr

/-- `_authenticate`: one login call; on success the token is cached and
returned, on failure `AuthenticationError`. -/
def clientAuthenticate (sc : NetScript) (st : ClientState) :
    Except EtlError (String × ClientState) :=
  match sc.authResult st.nAuth with
  | some t =>
    .ok (t, { st with nAuth := st.nAuth + 1, cache := some t })
  | none =>
    .error (.auth "Failed to authenticate")

/-- `get_token`: the cached token if valid, otherwise authenticate. -/
def clientGetToken (sc : NetScript) (st : ClientState) :
    Except EtlError (String × ClientState) :=
  match st.cache with
  | some t => .ok (t, st)
  | none => clientAuthenticate sc st

/-- One `Session.request` with a bearer token attached. -/
def clientRequest (sc : NetScript) (st : ClientState) (tok : String) :
    ReqOutcome × ClientState :=
  (sc.reqResult st.nReq,
   { st with nReq := st.nReq + 1, sentTokens := st.sentTokens ++ [tok] })

/-- `_make_authenticated_request`: attach the token; on HTTP 401 clear the
cached token, fetch a fresh one and retry exactly once (any failure of the
retry, 401 included, raises `TokenExpiredError`); any other HTTP error or
request failure raises `APIRequestError` with no retry. -/
def makeAuthenticatedRequest (sc : NetScript) (st : ClientState) :
    Except EtlError Unit × ClientState :=
  match clientGetToken sc st with
  | .error e => (.error e, st)
  | .ok (tok, st1) =>
    let (r1, st2) := clientRequest sc st1 tok
    match r1 with
    | .httpOk => (.ok (), st2)
    | .httpStatus code =>
      if code = 401 then
        let st3 := { st2 with cache := none }
        match clientGetToken sc st3 with
        | .error e => (.error e, st3)
        | .ok (tok2, st4) =>
          let (r2, st5) := clientRequest sc st4 tok2
          match r2 with
          | .httpOk => (.ok (), st5)
          | _ => (.error (.tokenExpired "Token refresh failed"), st5)
      else (.error (.apiRequest "API request failed"), st2)
    | .netFail => (.error (.apiRequest "Request failed"), st2)

/-- `download_inspection_report`: one authenticated GET; any
`APIRequestError` is wrapped as `FileDownloadError "Report download
failed"`, and any other exception (`AuthenticationError` and
`TokenExpiredError` included) is wrapped as `FileDownloadError "Unexpected
error"`; only a successful request produces a file. -/
def downloadInspectionReport (sc : NetScript) (st : ClientState) :
    Except EtlError Unit × ClientState :=
  match makeAuthenticatedRequest sc st with
  | (.ok (), st1) => (.ok (), st1)
  | (.error e, st1) =>
    match e with
    | .apiRequest m => (.error (.fileDownload ("Report download failed: " ++ m)), st1)
    | .auth m => (.error (.fileDownload ("Unexpected error: " ++ m)), st1)
    | .tokenExpired m => (.error (.fileDownload ("Unexpected error: " ++ m)), st1)
    | e => (.error e, st1)

/-! ## `download_intertek_report_task` (orchestration of the download) -/

/-- The constance configuration consumed by `get_intertek_client`. -/
structure EtlConfig where
  enabled : Bool
  username : String
  password : String
deriving DecidableEq, Repr

/-- `apps/etl/utils.get_intertek_client`: a disabled integration or missing
credentials raise a plain `ETLException` (modelled as `EtlError.config`). -/
def getIntertekClient (cfg : EtlConfig) : Except EtlError Unit :=
  if !cfg.enabled then .error (.config "Intertek API integration is disabled")
  else if cfg.username = "" ∨ cfg.password = "" then
    .error (.config "Intertek API credentials not configured")
  else .ok ()

/-- What the task body does with one attempt: return a success dict,
return an error dict (no retry), or raise `self.retry` (celery retry with
`max_retries=3`, `default_retry_delay=300`). -/
inductive TaskAction where
  | success
  | errorResult (msg : String)
  | retrySignal
deriving DecidableEq, Repr

/-- Message text of an `EtlError`. -/
def EtlError.message : EtlError → String
  | .config m => m
  | .auth m => m
  | .tokenExpired m => m
  | .apiRequest m => m
  | .fileDownload m => m

/-- The `isinstance(e, (AuthenticationError, APIRequestError))` retry test
of `download_intertek_report_task`. -/
def isRetryableClass : EtlError → Bool
  | .auth _ => true
  | .apiRequest _ => true
  | _ => false

/-- `download_intertek_report_task` (one attempt): acquire the client
(configuration failures are returned immediately), download; an
`ETLException` is retried only if it is an `AuthenticationError` or
`APIRequestError`, any other `ETLException` becomes an error result. -/
def downloadIntertekReportTask (cfg : EtlConfig) (sc : NetScript) :
    TaskAction :=
  match getIntertekClient cfg with
  | .error e => if isRetryableClass e then .retrySignal else .errorResult e.message
  | .ok () =>
    match downloadInspectionReport sc ⟨none, 0, 0, []⟩ with
    | (.ok (), _) => .success
    | (.error e, _) =>
      if isRetryableClass e then .retrySignal else .errorResult e.message

/-! ## Derived pipeline notions used by the theorems -/

/-- The rows that survive the empty-row filter, the header filter and the
duplicate-key filter of one run — the input of the row loop. -/
def survivorRows (db : ReportsDB) (rows : List Row) : List Row :=
  filterDuplicates
    (existingLabNumbers db
      (extractLabNumbers ((rows.filter rowNonEmpty).filter headerKeep)))
    ((rows.filter rowNonEmpty).filter headerKeep)

/-- The surviving entity-resolved batch of one run: the report/analysis
pairs the bulk-persistence step receives. -/
def survivingBatch (ref : RefDB) (db : ReportsDB) (rows : List Row) :
    List (Report × List (String × LabValue)) :=
  (processRows ref 3 (survivorRows db rows)).1

/-- Number of batch-level (`bulk_create`) entries in an error list. -/
def bulkErrorCount (es : List RowError) : Nat :=
  (es.filter (fun e => e.field = "bulk_create")).length

/-- The property C7 claims of every usage pair. -/
def exactlyOneNonzero (a b : Int) : Prop := (a ≠ 0 ∧ b = 0) ∨ (a = 0 ∧ b ≠ 0)

instance (a b : Int) : Decidable (exactlyOneNonzero a b) := by
  unfold exactlyOneNonzero
  infer_instance

/-! ## Concrete inputs used by witnesses and counterexamples -/

/-- Concrete script: a cached token, a 401 on the first request, a fresh
token from re-authentication, success on the retry. -/
def c8Script : NetScript :=
  ⟨fun _ => some "fresh", fun k => if k = 0 then .httpStatus 401 else .httpOk⟩

/-- A minimal data row: row number `1`, a lab number, and a sample-date
cell; every reference-entity cell is empty, so the row resolves without any
reference data. -/
def minimalRow (lab date : String) : Row :=
  [some "1", some lab, none, none, none, none, none, some date]

/-- A row of a transport-classified machine with explicit usage cells
(column 8: machine usage, column 9: lubricant usage). -/
def transportRow (usage8 usage9 : String) : Row :=
  [some "1", some "LAB-900", none, some "TRANSPORTES ANDINOS S.A.", none,
   none, none, none, some usage8, some usage9]

/-- A stored report with the given lab number and sample date and all
other fields trivial. -/
def storedReport (lab : String) (dt : Option PyDate) : Report :=
  ⟨lab, none, none, none, "", 0, 0, 0, 0, none, dt, "", none, none,
   "", "", "", .NORMAL, "", true⟩

/-- Storage holding one report with lab number `LAB-001` and no sample
date (so the watermark stage is inactive). -/
def c3db : ReportsDB := ⟨[storedReport "LAB-001" none], []⟩

/-- Storage holding one report with lab number `LAB-002` and sample date
November 30, 2025 (an active watermark). -/
def datedDb : ReportsDB := ⟨[storedReport "LAB-002" (some ⟨2025, 11, 30⟩)], []⟩

/-! ## Theorems -/

/-- **C5.** The integer-with-units parser maps `"720 horas"` to `720`,
`"1,234 km"` to `1234`, and `"-"` and `""` to `0`; the decimal parser maps
`"-"` and `""` to null and `"12.5"` to `12.5`; and for every empty
(falsy) or placeholder (`"-"`) cell the integer parser yields `0` while
the decimal parser yields null. -/
theorem c5_parser_default_asymmetry (v : Cell)
    (h : pyTruthy v = false ∨ v = some "-") :
    pyParseInteger (some "720 horas") = 720 ∧
    pyParseInteger (some "1,234 km") = 1234 ∧
    pyParseInteger (some "-") = 0 ∧
    pyParseInteger (some "") = 0 ∧
    pyParseDecimal (some "-") = none ∧
    pyParseDecimal (some "") = none ∧
    pyParseDecimal (some "12.5") = some (mkRat 25 2) ∧
    pyParseInteger v = 0 ∧ pyParseDecimal v = none := by
  have hc : (!pyTruthy v : Bool) = true ∨ v = some "-" := by
    rcases h with h | h
    · exact Or.inl (by simp [h])
    · exact Or.inr h
  refine ⟨by decide, by decide, by decide, by decide, by decide, by decide,
    by decide, ?_, ?_⟩
  · unfold pyParseInteger
    rw [if_pos hc]
  · unfold pyParseDecimal
    rw [if_pos hc]

theorem c5_parser_default_asymmetry_witness :
    (pyTruthy (some "-") = false ∨ (some "-" : Cell) = some "-") ∧
    (pyParseInteger (some "-") = 0 ∧ pyParseDecimal (some "-") = none) :=
  ⟨Or.inr rfl,
   ((c5_parser_default_asymmetry (some "-") (Or.inr rfl)).2.2.2.2.2.2.2 :)⟩

/-- **C6 (counterexample).** The condition normalizer is accent-sensitive:
the accented Spanish spelling `"Precaución"` is not in the mapping and so
normalizes to NORMAL, not CAUTION as the claim states. -/
theorem c6_condition_normalizer_cex :
    pyParseCondition (some "Precaución") = .NORMAL ∧
    pyParseCondition (some "Precaución") ≠ .CAUTION := by
  constructor
  · decide
  · decide

/-- **C6 (amended).** The normalizer is case-insensitive only on
unaccented spellings: `"Precaución"` and `"crítico"` (accented) normalize
to NORMAL, while `"precaucion"`/`"PRECAUCION"` map to CAUTION and
`"CRITICO"`, `"critico"` and `"alerta"` map to CRITICAL; empty or
unrecognized input yields NORMAL; and no input ever produces a value
outside {NORMAL, CAUTION, CRITICAL} (in particular never SEVERE). -/
theorem c6_condition_normalizer_amended (v : Cell) :
    pyParseCondition (some "Precaución") = .NORMAL ∧
    pyParseCondition (some "precaucion") = .CAUTION ∧
    pyParseCondition (some "PRECAUCION") = .CAUTION ∧
    pyParseCondition (some "CRITICO") = .CRITICAL ∧
    pyParseCondition (some "critico") = .CRITICAL ∧
    pyParseCondition (some "crítico") = .NORMAL ∧
    pyParseCondition (some "alerta") = .CRITICAL ∧
    pyParseCondition none = .NORMAL ∧
    pyParseCondition (some "") = .NORMAL ∧
    pyParseCondition v ≠ .SEVERE := by
  refine ⟨by decide, by decide, by decide, by decide, by decide, by decide,
    by decide, by decide, by decide, ?_⟩
  rcases v with _ | s
  · simp [pyParseCondition]
  · unfold pyParseCondition
    split
    · simp
    · cases hf : conditionMapping.find?
        (fun p => p.1 = pyLower (pyStrip s.data)) with
      | none => simp [hf]
      | some p =>
        have hmem := List.mem_of_find?_eq_some hf
        simp only [hf]
        fin_cases hmem <;> decide

/-- **C7 (counterexample).** A transport-classified row whose usage cell
is present but parses to zero (here the literal cell `"0"`) produces
`machine_hours = 0` and `machine_kms = 0`: neither component of the pair
is non-zero, refuting "exactly one of (hours, kilometers) is non-zero in
each usage pair". -/
theorem c7_usage_pair_cex :
    isTransportName (cellAt (transportRow "0" "150") 3) = true ∧
    cellAt (transportRow "0" "150") 8 = some "0" ∧
    ¬ exactlyOneNonzero
        (extractRowData (transportRow "0" "150")).1.machineHours
        (extractRowData (transportRow "0" "150")).1.machineKms := by
  refine ⟨by decide, by decide, by decide⟩

/-- **C7 (amended).** At most one component of each usage pair is
non-zero, and exactly one is non-zero precisely when the parsed usage
value is non-zero: transport rows put the parsed value in the kilometre
component and force hours to `0`, non-transport rows do the opposite, and
the transport classification is computed once from the machine-name field
and applied to both the machine-usage and lubricant-usage pairs. -/
theorem c7_usage_pair_amended (row : Row) :
    (isTransportName (cellAt row 3) = true →
      (extractRowData row).1.machineHours = 0 ∧
      (extractRowData row).1.lubricantHours = 0 ∧
      (extractRowData row).1.machineKms = pyParseInteger (cellAt row 8) ∧
      (extractRowData row).1.lubricantKms = pyParseInteger (cellAt row 9)) ∧
    (isTransportName (cellAt row 3) = false →
      (extractRowData row).1.machineKms = 0 ∧
      (extractRowData row).1.lubricantKms = 0 ∧
      (extractRowData row).1.machineHours = pyParseInteger (cellAt row 8) ∧
      (extractRowData row).1.lubricantHours = pyParseInteger (cellAt row 9)) ∧
    (pyParseInteger (cellAt row 8) ≠ 0 →
      exactlyOneNonzero (extractRowData row).1.machineHours
        (extractRowData row).1.machineKms) ∧
    (pyParseInteger (cellAt row 9) ≠ 0 →
      exactlyOneNonzero (extractRowData row).1.lubricantHours
        (extractRowData row).1.lubricantKms) ∧
    ((extractRowData row).1.machineHours = 0 ∨
      (extractRowData row).1.machineKms = 0) ∧
    ((extractRowData row).1.lubricantHours = 0 ∨
      (extractRowData row).1.lubricantKms = 0) := by
  cases ht : isTransportName (cellAt row 3) <;>
    simp [extractRowData, parseHoursKms, ht, exactlyOneNonzero]

theorem c7_usage_pair_amended_witness :
    exactlyOneNonzero
      (extractRowData (transportRow "150" "80")).1.machineHours
      (extractRowData (transportRow "150" "80")).1.machineKms ∧
    exactlyOneNonzero
      (extractRowData (transportRow "150" "80")).1.lubricantHours
      (extractRowData (transportRow "150" "80")).1.lubricantKms ∧
    (extractRowData (transportRow "150" "80")).1.machineHours = 0 := by
  have h := c7_usage_pair_amended (transportRow "150" "80")
  exact ⟨h.2.2.1 (by decide), h.2.2.2.1 (by decide), (h.1 (by decide)).1⟩

/-- **C8.** With a cached token, a first-request 401 makes the client
invalidate the cache, re-authenticate exactly once and retry exactly once
with the new token (two requests total, bearing the old then the new
token); the retried request's outcome is final — success on 2xx,
`TokenExpiredError` on any failure, 401 included — with no third request;
and a non-401 HTTP error or a network failure is terminal after a single
request with no re-authentication. -/
theorem c8_auth_retry_once (sc : NetScript) (t0 t1 : String) (code : Nat) :
    (sc.reqResult 0 = .httpStatus 401 → sc.authResult 0 = some t1 →
      (makeAuthenticatedRequest sc ⟨some t0, 0, 0, []⟩).2.nReq = 2 ∧
      (makeAuthenticatedRequest sc ⟨some t0, 0, 0, []⟩).2.nAuth = 1 ∧
      (makeAuthenticatedRequest sc ⟨some t0, 0, 0, []⟩).2.sentTokens
         = [t0, t1] ∧
      (sc.reqResult 1 = .httpOk →
        (makeAuthenticatedRequest sc ⟨some t0, 0, 0, []⟩).1 = .ok ()) ∧
      (sc.reqResult 1 ≠ .httpOk →
        (makeAuthenticatedRequest sc ⟨some t0, 0, 0, []⟩).1
          = .error (.tokenExpired "Token refresh failed"))) ∧
    (sc.reqResult 0 = .httpStatus code → code ≠ 401 →
      (makeAuthenticatedRequest sc ⟨some t0, 0, 0, []⟩).1
        = .error (.apiRequest "API request failed") ∧
      (makeAuthenticatedRequest sc ⟨some t0, 0, 0, []⟩).2.nReq = 1 ∧
      (makeAuthenticatedRequest sc ⟨some t0, 0, 0, []⟩).2.nAuth = 0) ∧
    (sc.reqResult 0 = .netFail →
      (makeAuthenticatedRequest sc ⟨some t0, 0, 0, []⟩).1
        = .error (.apiRequest "Request failed") ∧
      (makeAuthenticatedRequest sc ⟨some t0, 0, 0, []⟩).2.nReq = 1 ∧
      (makeAuthenticatedRequest sc ⟨some t0, 0, 0, []⟩).2.nAuth = 0) := by
  refine ⟨fun h401 hauth => ?_, fun hcode hne => ?_, fun hnet => ?_⟩
  · cases hr2 : sc.reqResult 1 with
    | httpOk =>
      simp [makeAuthenticatedRequest, clientGetToken, clientRequest,
        clientAuthenticate, h401, hauth, hr2]
    | httpStatus c2 =>
      simp [makeAuthenticatedRequest, clientGetToken, clientRequest,
        clientAuthenticate, h401, hauth, hr2]
    | netFail =>
      simp [makeAuthenticatedRequest, clientGetToken, clientRequest,
        clientAuthenticate, h401, hauth, hr2]
  · simp [makeAuthenticatedRequest, clientGetToken, clientRequest,
      clientAuthenticate, hcode, hne]
  · simp [makeAuthenticatedRequest, clientGetToken, clientRequest,
      clientAuthenticate, hnet]

theorem c8_auth_retry_once_witness :
    (makeAuthenticatedRequest c8Script ⟨some "cached", 0, 0, []⟩).2.nReq = 2 ∧
    (makeAuthenticatedRequest c8Script ⟨some "cached", 0, 0, []⟩).2.nAuth = 1 ∧
    (makeAuthenticatedRequest c8Script ⟨some "cached", 0, 0, []⟩).2.sentTokens
      = ["cached", "fresh"] ∧
    (makeAuthenticatedRequest c8Script ⟨some "cached", 0, 0, []⟩).1
      = .ok () := by
  have h :=
    (c8_auth_retry_once c8Script "cached" "fresh" 401).1 (by decide) (by decide)
  exact ⟨h.1, h.2.1, h.2.2.1, h.2.2.2.1 (by decide)⟩

/-- **C9 (code evidence).** Download failures are never retried by the
orchestration task: the client wraps every failure of the download —
underlying request errors and authentication errors alike — into
`FileDownloadError`, which fails the task's
`isinstance(e, (AuthenticationError, APIRequestError))` retry test, so the
task returns an error result with zero retries; the retry signal is
unreachable for every configuration and network behaviour.  (Configuration
errors are likewise returned without retry, as the claim states.) -/
theorem c9_download_error_not_retried :
    downloadIntertekReportTask ⟨true, "user", "pass"⟩
        ⟨fun _ => some "tok", fun _ => .netFail⟩
      = .errorResult "Report download failed: Request failed" ∧
    downloadIntertekReportTask ⟨true, "user", "pass"⟩
        ⟨fun _ => none, fun _ => .httpOk⟩
      = .errorResult "Unexpected error: Failed to authenticate" ∧
    downloadIntertekReportTask ⟨false, "user", "pass"⟩
        ⟨fun _ => some "tok", fun _ => .httpOk⟩
      = .errorResult "Intertek API integration is disabled" ∧
    (∀ (cfg : EtlConfig) (sc : NetScript),
      downloadIntertekReportTask cfg sc ≠ .retrySignal) := by
  refine ⟨by decide, by decide, by decide, fun cfg sc => ?_⟩
  unfold downloadIntertekReportTask
  cases hc : getIntertekClient cfg with
  | error e =>
    unfold getIntertekClient at hc
    split at hc
    · cases hc
      simp [isRetryableClass]
    · split at hc
      · cases hc
        simp [isRetryableClass]
      · cases hc
  | ok u =>
    cases hd : downloadInspectionReport sc ⟨none, 0, 0, []⟩ with
    | mk res st =>
      cases res with
      | ok u2 => simp
      | error e =>
        have he : ∃ m, e = .fileDownload m := by
          unfold downloadInspectionReport at hd
          cases hm : makeAuthenticatedRequest sc ⟨none, 0, 0, []⟩ with
          | mk mres mst =>
            have hmres : mres = .ok () ∨ (∃ m, mres = .error (.auth m)) ∨
                (∃ m, mres = .error (.tokenExpired m)) ∨
                (∃ m, mres = .error (.apiRequest m)) := by
              unfold makeAuthenticatedRequest clientGetToken
                clientAuthenticate clientRequest at hm
              cases ha : sc.authResult 0 with
              | none =>
                simp only [ha] at hm
                cases hm
                exact Or.inr (Or.inl ⟨_, rfl⟩)
              | some t =>
                simp only [ha] at hm
                cases hr1 : sc.reqResult 0 with
                | httpOk =>
                  simp only [hr1] at hm
                  cases hm
                  exact Or.inl rfl
                | netFail =>
                  simp only [hr1] at hm
                  cases hm
                  exact Or.inr (Or.inr (Or.inr ⟨_, rfl⟩))
                | httpStatus code =>
                  simp only [hr1] at hm
                  by_cases h401 : code = 401
                  · subst h401
                    simp only [if_pos rfl] at hm
                    cases ha2 : sc.authResult 1 with
                    | none =>
                      simp only [ha2] at hm
                      cases hm
                      exact Or.inr (Or.inl ⟨_, rfl⟩)
                    | some t2 =>
                      simp only [ha2] at hm
                      cases hr2 : sc.reqResult 1 with
                      | httpOk =>
                        simp only [hr2] at hm
                        cases hm
                        exact Or.inl rfl
                      | httpStatus c2 =>
                        simp only [hr2] at hm
                        cases hm
                        exact Or.inr (Or.inr (Or.inl ⟨_, rfl⟩))
                      | netFail =>
                        simp only [hr2] at hm
                        cases hm
                        exact Or.inr (Or.inr (Or.inl ⟨_, rfl⟩))
                  · rw [if_neg h401] at hm
                    cases hm
                    exact Or.inr (Or.inr (Or.inr ⟨_, rfl⟩))
            rcases hmres with h | ⟨m, h⟩ | ⟨m, h⟩ | ⟨m, h⟩ <;>
              subst h <;> simp only [hm] at hd <;> cases hd <;>
                exact ⟨_, rfl⟩
        rcases he with ⟨m, hme⟩
        subst hme
        simp [isRetryableClass]

/-! ### Digit, padding and splitting lemmas for the date round-trip -/

theorem digitChar_isDigit {d : Nat} (h : d < 10) :
    (Nat.digitChar d).isDigit = true := by
  interval_cases d <;> decide

theorem charDigitVal_digitChar {d : Nat} (h : d < 10) :
    charDigitVal (Nat.digitChar d) = d := by
  interval_cases d <;> decide

theorem pad2_all_digit {n : Nat} (h : n < 100) :
    (pad2 n).all Char.isDigit = true := by
  have h1 : n / 10 < 10 := by omega
  have h2 : n % 10 < 10 := by omega
  simp [pad2, digitChar_isDigit h1, digitChar_isDigit h2]

theorem digitsToNat_pad2 {n : Nat} (h : n < 100) : digitsToNat (pad2 n) = n := by
  have h1 : n / 10 < 10 := by omega
  have h2 : n % 10 < 10 := by omega
  simp [pad2, digitsToNat, charDigitVal_digitChar h1, charDigitVal_digitChar h2]
  omega

theorem fieldNat2_pad2 {n : Nat} (h : n < 100) : fieldNat2 (pad2 n) = some n := by
  unfold fieldNat2
  rw [if_pos ⟨by simp [pad2], by simp [pad2], pad2_all_digit h⟩,
    digitsToNat_pad2 h]

theorem pad4_all_digit {y : Nat} (h : y < 10000) :
    (pad4 y).all Char.isDigit = true := by
  have h1 : y / 1000 < 10 := by omega
  have h2 : y / 100 % 10 < 10 := by omega
  have h3 : y / 10 % 10 < 10 := by omega
  have h4 : y % 10 < 10 := by omega
  simp [pad4, digitChar_isDigit h1, digitChar_isDigit h2,
    digitChar_isDigit h3, digitChar_isDigit h4]

theorem digitsToNat_pad4 {y : Nat} (h : y < 10000) :
    digitsToNat (pad4 y) = y := by
  have h1 : y / 1000 < 10 := by omega
  have h2 : y / 100 % 10 < 10 := by omega
  have h3 : y / 10 % 10 < 10 := by omega
  have h4 : y % 10 < 10 := by omega
  simp [pad4, digitsToNat, charDigitVal_digitChar h1, charDigitVal_digitChar h2,
    charDigitVal_digitChar h3, charDigitVal_digitChar h4]
  omega

theorem fieldNat4_pad4 {y : Nat} (h : y < 10000) :
    fieldNat4 (pad4 y) = some y := by
  unfold fieldNat4
  rw [if_pos ⟨by simp [pad4], pad4_all_digit h⟩, digitsToNat_pad4 h]

theorem fieldNat2_pad4 (y : Nat) : fieldNat2 (pad4 y) = none := by
  unfold fieldNat2
  rw [if_neg]
  intro ⟨_, h2, _⟩
  simp [pad4] at h2

theorem fieldNat4_pad2 (n : Nat) : fieldNat4 (pad2 n) = none := by
  unfold fieldNat4
  rw [if_neg]
  intro ⟨h1, _⟩
  simp [pad2] at h1

theorem pad2_sep_not_mem {n : Nat} (h : n < 100) {c : Char}
    (hc : c.isDigit = false) : c ∉ pad2 n := by
  intro hmem
  have hd := List.all_eq_true.mp (pad2_all_digit h) c hmem
  rw [hc] at hd
  cases hd

theorem pad4_sep_not_mem {y : Nat} (h : y < 10000) {c : Char}
    (hc : c.isDigit = false) : c ∉ pad4 y := by
  intro hmem
  have hd := List.all_eq_true.mp (pad4_all_digit h) c hmem
  rw [hc] at hd
  cases hd

theorem splitOnChar_ne_nil (sep : Char) (l : List Char) :
    splitOnChar sep l ≠ [] := by
  cases l with
  | nil => simp [splitOnChar]
  | cons c cs =>
    simp only [splitOnChar]
    cases h : splitOnChar sep cs with
    | nil => simp
    | cons f rest => by_cases hcs : c = sep <;> simp [hcs]

theorem splitOnChar_not_mem {sep : Char} :
    ∀ {l : List Char}, sep ∉ l → splitOnChar sep l = [l] := by
  intro l
  induction l with
  | nil => intro _; rfl
  | cons c cs ih =>
    intro h
    have hc : ¬(c = sep) := fun he => h (by simp [he])
    have hcs : sep ∉ cs := fun hm => h (List.mem_cons_of_mem _ hm)
    simp only [splitOnChar, ih hcs]
    rw [if_neg hc]

theorem splitOnChar_append {sep : Char} {xs ys : List Char} (h : sep ∉ xs) :
    splitOnChar sep (xs ++ sep :: ys) = xs :: splitOnChar sep ys := by
  induction xs with
  | nil =>
    simp only [List.nil_append, splitOnChar]
    cases hy : splitOnChar sep ys with
    | nil => exact absurd hy (splitOnChar_ne_nil sep ys)
    | cons f rest => simp
  | cons c cs ih =>
    have hc : ¬(c = sep) := fun he => h (by simp [he])
    have hcs : sep ∉ cs := fun hm => h (List.mem_cons_of_mem _ hm)
    have ih2 : splitOnChar sep (List.append cs (sep :: ys))
        = cs :: splitOnChar sep ys := ih hcs
    simp only [List.cons_append, splitOnChar, ih2]
    rw [if_neg hc]

/-! ### Calendar bounds -/

theorem daysInMonth_le_31 (y m : Nat) : daysInMonth y m ≤ 31 := by
  unfold daysInMonth
  split
  · split <;> omega
  · split <;> omega

theorem daysInMonth_ge_28 (y m : Nat) : 28 ≤ daysInMonth y m := by
  unfold daysInMonth
  split
  · split <;> omega
  · split <;> omega

theorem validDate_bounds {y m d : Nat} (h : validDate y m d = true) :
    1 ≤ y ∧ y ≤ 9999 ∧ 1 ≤ m ∧ m ≤ 12 ∧ 1 ≤ d ∧ d ≤ daysInMonth y m := by
  unfold validDate at h
  simp only [Bool.and_eq_true, decide_eq_true_eq, and_assoc] at h
  exact h

/-! ### Behaviour of the four `strptime` formats on rendered dates -/

theorem parseDMY_fmt {y m d : Nat} {sep : Char} (h : validDate y m d = true)
    (hsep : sep.isDigit = false) :
    parseDMY sep (fmtDMY sep ⟨y, m, d⟩) = some ⟨y, m, d⟩ := by
  obtain ⟨hy1, hy2, hm1, hm2, hd1, hd2⟩ := validDate_bounds h
  have hd100 : d < 100 := by
    have := daysInMonth_le_31 y m
    omega
  have hm100 : m < 100 := by omega
  have hy4 : y < 10000 := by omega
  unfold fmtDMY parseDMY
  rw [splitOnChar_append (pad2_sep_not_mem hd100 hsep),
    splitOnChar_append (pad2_sep_not_mem hm100 hsep),
    splitOnChar_not_mem (pad4_sep_not_mem hy4 hsep)]
  simp only [fieldNat2_pad2 hd100, fieldNat2_pad2 hm100, fieldNat4_pad4 hy4]
  rw [if_pos h]

theorem parseDMY_no_sep {sep : Char} {l : List Char} (h : sep ∉ l) :
    parseDMY sep l = none := by
  unfold parseDMY
  rw [splitOnChar_not_mem h]

theorem parseYMD_no_sep {sep : Char} {l : List Char} (h : sep ∉ l) :
    parseYMD sep l = none := by
  unfold parseYMD
  rw [splitOnChar_not_mem h]

theorem parseYMD_fmt {y m d : Nat} (h : validDate y m d = true) :
    parseYMD '-' (fmtYMD ⟨y, m, d⟩) = some ⟨y, m, d⟩ := by
  obtain ⟨hy1, hy2, hm1, hm2, hd1, hd2⟩ := validDate_bounds h
  have hd100 : d < 100 := by
    have := daysInMonth_le_31 y m
    omega
  have hm100 : m < 100 := by omega
  have hy4 : y < 10000 := by omega
  unfold fmtYMD parseYMD
  rw [splitOnChar_append (pad4_sep_not_mem hy4 (by decide)),
    splitOnChar_append (pad2_sep_not_mem hm100 (by decide)),
    splitOnChar_not_mem (pad2_sep_not_mem hd100 (by decide))]
  simp only [fieldNat2_pad2 hd100, fieldNat2_pad2 hm100, fieldNat4_pad4 hy4]
  rw [if_pos h]

theorem parseDMY_fmtYMD {y m d : Nat} (h : validDate y m d = true) :
    parseDMY '-' (fmtYMD ⟨y, m, d⟩) = none := by
  obtain ⟨hy1, hy2, hm1, hm2, hd1, hd2⟩ := validDate_bounds h
  have hd100 : d < 100 := by
    have := daysInMonth_le_31 y m
    omega
  have hm100 : m < 100 := by omega
  have hy4 : y < 10000 := by omega
  unfold fmtYMD parseDMY
  rw [splitOnChar_append (pad4_sep_not_mem hy4 (by decide)),
    splitOnChar_append (pad2_sep_not_mem hm100 (by decide)),
    splitOnChar_not_mem (pad2_sep_not_mem hd100 (by decide))]
  simp only [fieldNat2_pad4]

theorem not_mem_fmtDMY {c : Char} {dt : PyDate} (hc : c.isDigit = false)
    (hsep : ¬(c = '-')) (hd : dt.day < 100) (hm : dt.month < 100)
    (hy : dt.year < 10000) : c ∉ fmtDMY '-' dt := by
  intro hmem
  unfold fmtDMY at hmem
  rcases List.mem_append.mp hmem with h | h
  · exact pad2_sep_not_mem hd hc h
  · rcases List.mem_cons.mp h with h | h
    · exact hsep h
    · rcases List.mem_append.mp h with h | h
      · exact pad2_sep_not_mem hm hc h
      · rcases List.mem_cons.mp h with h | h
        · exact hsep h
        · exact pad4_sep_not_mem hy hc h

theorem not_mem_fmtYMD {c : Char} {dt : PyDate} (hc : c.isDigit = false)
    (hsep : ¬(c = '-')) (hd : dt.day < 100) (hm : dt.month < 100)
    (hy : dt.year < 10000) : c ∉ fmtYMD dt := by
  intro hmem
  unfold fmtYMD at hmem
  rcases List.mem_append.mp hmem with h | h
  · exact pad4_sep_not_mem hy hc h
  · rcases List.mem_cons.mp h with h | h
    · exact hsep h
    · rcases List.mem_append.mp h with h | h
      · exact pad2_sep_not_mem hm hc h
      · rcases List.mem_cons.mp h with h | h
        · exact hsep h
        · exact pad2_sep_not_mem hd hc h

theorem not_mem_fmtMDY {c : Char} {dt : PyDate} (hc : c.isDigit = false)
    (hsep : ¬(c = '/')) (hd : dt.day < 100) (hm : dt.month < 100)
    (hy : dt.year < 10000) : c ∉ fmtMDY dt := by
  intro hmem
  unfold fmtMDY at hmem
  rcases List.mem_append.mp hmem with h | h
  · exact pad2_sep_not_mem hm hc h
  · rcases List.mem_cons.mp h with h | h
    · exact hsep h
    · rcases List.mem_append.mp h with h | h
      · exact pad2_sep_not_mem hd hc h
      · rcases List.mem_cons.mp h with h | h
        · exact hsep h
        · exact pad4_sep_not_mem hy hc h

theorem parseDMY_fmtMDY_le12 {y m d : Nat} (h : validDate y m d = true)
    (h12 : d ≤ 12) :
    parseDMY '/' (fmtMDY ⟨y, m, d⟩) = some ⟨y, d, m⟩ := by
  obtain ⟨hy1, hy2, hm1, hm2, hd1, hd2⟩ := validDate_bounds h
  have hd100 : d < 100 := by omega
  have hm100 : m < 100 := by omega
  have hy4 : y < 10000 := by omega
  have hvalid : validDate y d m = true := by
    unfold validDate
    simp only [Bool.and_eq_true, decide_eq_true_eq, and_assoc]
    refine ⟨hy1, hy2, hd1, h12, hm1, ?_⟩
    have := daysInMonth_ge_28 y d
    omega
  unfold fmtMDY parseDMY
  rw [splitOnChar_append (pad2_sep_not_mem hm100 (by decide)),
    splitOnChar_append (pad2_sep_not_mem hd100 (by decide)),
    splitOnChar_not_mem (pad4_sep_not_mem hy4 (by decide))]
  simp only [fieldNat2_pad2 hd100, fieldNat2_pad2 hm100, fieldNat4_pad4 hy4]
  rw [if_pos hvalid]

theorem parseDMY_fmtMDY_gt12 {y m d : Nat} (h : validDate y m d = true)
    (h12 : 12 < d) :
    parseDMY '/' (fmtMDY ⟨y, m, d⟩) = none := by
  obtain ⟨hy1, hy2, hm1, hm2, hd1, hd2⟩ := validDate_bounds h
  have hd100 : d < 100 := by
    have := daysInMonth_le_31 y m
    omega
  have hm100 : m < 100 := by omega
  have hy4 : y < 10000 := by omega
  have hinvalid : ¬(validDate y d m = true) := by
    unfold validDate
    simp only [Bool.and_eq_true, decide_eq_true_eq, and_assoc]
    intro hh
    omega
  unfold fmtMDY parseDMY
  rw [splitOnChar_append (pad2_sep_not_mem hm100 (by decide)),
    splitOnChar_append (pad2_sep_not_mem hd100 (by decide)),
    splitOnChar_not_mem (pad4_sep_not_mem hy4 (by decide))]
  simp only [fieldNat2_pad2 hd100, fieldNat2_pad2 hm100, fieldNat4_pad4 hy4]
  rw [if_neg hinvalid]

theorem parseMDY_fmt {y m d : Nat} (h : validDate y m d = true) :
    parseMDY '/' (fmtMDY ⟨y, m, d⟩) = some ⟨y, m, d⟩ := by
  obtain ⟨hy1, hy2, hm1, hm2, hd1, hd2⟩ := validDate_bounds h
  have hd100 : d < 100 := by
    have := daysInMonth_le_31 y m
    omega
  have hm100 : m < 100 := by omega
  have hy4 : y < 10000 := by omega
  unfold fmtMDY parseMDY
  rw [splitOnChar_append (pad2_sep_not_mem hm100 (by decide)),
    splitOnChar_append (pad2_sep_not_mem hd100 (by decide)),
    splitOnChar_not_mem (pad4_sep_not_mem hy4 (by decide))]
  simp only [fieldNat2_pad2 hd100, fieldNat2_pad2 hm100, fieldNat4_pad4 hy4]
  rw [if_pos h]

/-- **C4 (counterexample).** Rendering January 2, 2025 in the MM/DD/YYYY
format gives `"01/02/2025"`, which the parser first matches as DD/MM/YYYY
and reads back as February 1, 2025 — the round-trip fails for the fourth
format whenever the day is at most 12 and differs from the month. -/
theorem c4_date_roundtrip_cex :
    validDate 2025 1 2 = true ∧
    fmtMDY ⟨2025, 1, 2⟩ = "01/02/2025".data ∧
    pyParseDate (some "01/02/2025") = some ⟨2025, 2, 1⟩ ∧
    some (⟨2025, 2, 1⟩ : PyDate) ≠ some (⟨2025, 1, 2⟩ : PyDate) := by
  exact ⟨by decide, by decide, by decide, by decide⟩

/-- **C4 (amended).** For every calendar date, rendering in DD/MM/YYYY,
DD-MM-YYYY or YYYY-MM-DD and parsing the result yields the same date; the
parser tries the formats in the fixed priority order with the first
success winning, and because DD/MM/YYYY is tried first, a date rendered as
MM/DD/YYYY round-trips exactly when its day exceeds 12 or equals its
month — otherwise the parse succeeds in the DD/MM/YYYY format and returns
the date with day and month transposed. -/
theorem c4_date_roundtrip_amended {y m d : Nat} (h : validDate y m d = true) :
    pyParseDateStr (fmtDMY '/' ⟨y, m, d⟩) = some ⟨y, m, d⟩ ∧
    pyParseDateStr (fmtDMY '-' ⟨y, m, d⟩) = some ⟨y, m, d⟩ ∧
    pyParseDateStr (fmtYMD ⟨y, m, d⟩) = some ⟨y, m, d⟩ ∧
    (12 < d → pyParseDateStr (fmtMDY ⟨y, m, d⟩) = some ⟨y, m, d⟩) ∧
    (d = m → pyParseDateStr (fmtMDY ⟨y, m, d⟩) = some ⟨y, m, d⟩) ∧
    (d ≤ 12 → pyParseDateStr (fmtMDY ⟨y, m, d⟩) = some ⟨y, d, m⟩) ∧
    (d ≤ 12 → ¬(d = m) →
      pyParseDateStr (fmtMDY ⟨y, m, d⟩) ≠ some ⟨y, m, d⟩) := by
  obtain ⟨hy1, hy2, hm1, hm2, hd1, hd2⟩ := validDate_bounds h
  have hd100 : d < 100 := by
    have := daysInMonth_le_31 y m
    omega
  have hm100 : m < 100 := by omega
  have hy4 : y < 10000 := by omega
  have hle : ∀ h12 : d ≤ 12,
      pyParseDateStr (fmtMDY ⟨y, m, d⟩) = some ⟨y, d, m⟩ := by
    intro h12
    unfold pyParseDateStr
    rw [parseDMY_fmtMDY_le12 h h12]
  refine ⟨?_, ?_, ?_, ?_, ?_, hle, ?_⟩
  · unfold pyParseDateStr
    rw [parseDMY_fmt h (by decide)]
  · unfold pyParseDateStr
    rw [parseDMY_no_sep
      (@not_mem_fmtDMY '/' ⟨y, m, d⟩ (by decide) (by decide) hd100 hm100 hy4)]
    rw [parseDMY_fmt h (by decide)]
  · unfold pyParseDateStr
    rw [parseDMY_no_sep
      (@not_mem_fmtYMD '/' ⟨y, m, d⟩ (by decide) (by decide) hd100 hm100 hy4)]
    rw [parseDMY_fmtYMD h]
    rw [parseYMD_fmt h]
  · intro h12
    unfold pyParseDateStr
    rw [parseDMY_fmtMDY_gt12 h h12]
    rw [parseDMY_no_sep
      (@not_mem_fmtMDY '-' ⟨y, m, d⟩ (by decide) (by decide) hd100 hm100 hy4)]
    rw [parseYMD_no_sep
      (@not_mem_fmtMDY '-' ⟨y, m, d⟩ (by decide) (by decide) hd100 hm100 hy4)]
    rw [parseMDY_fmt h]
  · intro hdm
    subst hdm
    rw [hle hm2]
  · intro h12 hdm
    rw [hle h12]
    intro hcontra
    have h2 : (⟨y, d, m⟩ : PyDate) = ⟨y, m, d⟩ := Option.some_inj.mp hcontra
    exact hdm (congrArg PyDate.month h2)

theorem c4_date_roundtrip_amended_witness :
    pyParseDateStr (fmtDMY '/' ⟨2025, 12, 18⟩) = some ⟨2025, 12, 18⟩ ∧
    pyParseDateStr (fmtDMY '-' ⟨2025, 12, 18⟩) = some ⟨2025, 12, 18⟩ ∧
    pyParseDateStr (fmtYMD ⟨2025, 12, 18⟩) = some ⟨2025, 12, 18⟩ ∧
    pyParseDateStr (fmtMDY ⟨2025, 12, 18⟩) = some ⟨2025, 12, 18⟩ := by
  have h := c4_date_roundtrip_amended (by decide : validDate 2025 12 18 = true)
  exact ⟨h.1, h.2.1, h.2.2.1, h.2.2.2.1 (by decide)⟩

/-! ### Pipeline lemmas -/

theorem labsNodupB_iff {ls : List String} : labsNodupB ls = true ↔ ls.Nodup := by
  induction ls with
  | nil => simp [labsNodupB]
  | cons l ls ih =>
    simp [labsNodupB, ih, List.nodup_cons, List.contains, List.elem_eq_mem]

theorem bulkInsertOk_spec {db : ReportsDB} {labs : List String}
    (h : bulkInsertOk db labs = true) :
    labs.Nodup ∧ ∀ l ∈ labs, l ∉ dbLabNumbers db := by
  unfold bulkInsertOk at h
  rw [Bool.and_eq_true] at h
  refine ⟨labsNodupB_iff.mp h.1, fun l hl => ?_⟩
  have := List.all_eq_true.mp h.2 l hl
  simpa [List.contains, List.elem_eq_mem] using this

theorem persistBatch_nodup {db : ReportsDB}
    {pairs : List (Report × List (String × LabValue))}
    (h : (dbLabNumbers db).Nodup) :
    (dbLabNumbers (persistBatch db pairs).1).Nodup := by
  unfold persistBatch
  split
  · exact h
  · split
    · next hok =>
      obtain ⟨hnd, hall⟩ := bulkInsertOk_spec hok
      unfold dbLabNumbers at h ⊢
      simp only [List.map_append, List.map_map]
      rw [List.nodup_append]
      refine ⟨h, hnd, fun a ha hamem => ?_⟩
      exact hall a hamem ha
    · exact h

theorem processDataframe_eq (ref : RefDB) (db : ReportsDB) (rows : List Row) :
    processDataframe ref db rows =
      ((persistBatch db (survivingBatch ref db rows)).1,
       ⟨(persistBatch db (survivingBatch ref db rows)).2.1, 0,
        (processRows ref 3 (survivorRows db rows)).2
          ++ (persistBatch db (survivingBatch ref db rows)).2.2,
        (existingLabNumbers db (extractLabNumbers
          ((rows.filter rowNonEmpty).filter headerKeep))).length⟩) := by
  simp only [processDataframe, survivingBatch, survivorRows]
  by_cases h1 : rows.filter rowNonEmpty = []
  · simp [h1, extractLabNumbers, existingLabNumbers, filterDuplicates,
      processRows, persistBatch]
  · rw [if_neg h1]
    by_cases h2 : (rows.filter rowNonEmpty).filter headerKeep = []
    · simp [h2, extractLabNumbers, existingLabNumbers, filterDuplicates,
        processRows, persistBatch]
    · rw [if_neg h2]
      by_cases h3 : filterDuplicates
          (existingLabNumbers db (extractLabNumbers
            ((rows.filter rowNonEmpty).filter headerKeep)))
          ((rows.filter rowNonEmpty).filter headerKeep) = []
      · rw [if_pos h3, h3]
        simp [processRows, persistBatch]
      · rw [if_neg h3]

theorem mkResolutionError_field (rowNum : Nat) (rd : ReportData)
    (e : String × String) :
    (mkResolutionError rowNum rd e).field = "entity_resolution" ∨
    (mkResolutionError rowNum rd e).field = "unknown" := by
  unfold mkResolutionError
  split
  · next he => exact Or.inl he
  · exact Or.inr rfl

theorem processRow_field {ref : RefDB} {n : Nat} {row : Row} {e : RowError}
    (h : processRow ref n row = .error e) :
    e.field = "lab_number" ∨ e.field = "entity_resolution" ∨
    e.field = "unknown" := by
  simp only [processRow] at h
  split at h
  · cases h
    exact Or.inl rfl
  · split at h
    · cases h
      exact Or.inr (mkResolutionError_field _ _ _)
    · split at h
      · cases h
        exact Or.inr (mkResolutionError_field _ _ _)
      · split at h
        · cases h
          exact Or.inr (mkResolutionError_field _ _ _)
        · cases h

theorem processRows_no_bulk (ref : RefDB) (n : Nat) (rs : List Row) :
    ∀ e ∈ (processRows ref n rs).2, ¬(e.field = "bulk_create") := by
  induction rs generalizing n with
  | nil =>
    intro e he
    simp [processRows] at he
  | cons r rs ih =>
    intro e he
    simp only [processRows] at he
    cases hp : processRow ref n r with
    | ok p =>
      rw [hp] at he
      exact ih (n + 1) e he
    | error e2 =>
      rw [hp] at he
      rcases List.mem_cons.mp he with he2 | he2
      · subst he2
        rcases processRow_field hp with hf | hf | hf <;> simp [hf]
      · exact ih (n + 1) e he2

theorem bulkErrorCount_processRows (ref : RefDB) (n : Nat) (rs : List Row) :
    bulkErrorCount (processRows ref n rs).2 = 0 := by
  unfold bulkErrorCount
  rw [List.filter_eq_nil_iff.mpr]
  · rfl
  · intro e he
    have := processRows_no_bulk ref n rs e he
    simp [this]

/-- **C1.** Uniqueness of `lab_number` is an invariant of every ingestion
run: if the stored lab numbers are pairwise distinct before the run, they
are pairwise distinct after it, both for `process_dataframe` and for the
full `process_report_task`; the modelled unique constraint rejects a
batch containing an in-batch duplicate (or a stored lab number) as a
whole, leaving storage unchanged, so no run can ever create two reports
with the same lab number. -/
theorem c1_lab_number_uniqueness (ref : RefDB) (db : ReportsDB)
    (rows : List Row) (h : (dbLabNumbers db).Nodup) :
    (dbLabNumbers (processDataframe ref db rows).1).Nodup ∧
    (dbLabNumbers (processReportTask ref db rows).1).Nodup := by
  have hpd : ∀ rs : List Row,
      (dbLabNumbers (processDataframe ref db rs).1).Nodup := by
    intro rs
    rw [processDataframe_eq]
    exact persistBatch_nodup h
  refine ⟨hpd rows, ?_⟩
  simp only [processReportTask]
  by_cases hf : watermarkStage db rows = []
  · simp only [hf, if_pos rfl]
    exact h
  · rw [if_neg hf]
    exact hpd _

theorem c1_lab_number_uniqueness_witness :
    (dbLabNumbers emptyReportsDB).Nodup ∧
    (dbLabNumbers (processDataframe ⟨[], [], []⟩ emptyReportsDB
      [minimalRow "LAB-001" "18/12/2025",
       minimalRow "LAB-001" "19/12/2025"]).1).Nodup :=
  ⟨by decide,
   (c1_lab_number_uniqueness ⟨[], [], []⟩ emptyReportsDB
     [minimalRow "LAB-001" "18/12/2025",
      minimalRow "LAB-001" "19/12/2025"] (by decide)).1⟩

/-- **C2.** Bulk persistence of the surviving entity-resolved batch is
all-or-nothing: if the bulk write succeeds, the created reports and their
zipped analyses are appended together, `created` equals the batch size,
the new report and analysis counts are equal, no batch-level error is
reported, and every created analysis is paired with exactly one created
report; if the bulk write fails on a non-empty batch, storage is
unchanged, `created` is `0`, and exactly one batch-level error is
reported. -/
theorem c2_bulk_all_or_nothing (ref : RefDB) (db : ReportsDB)
    (rows : List Row) :
    (bulkInsertOk db
        ((survivingBatch ref db rows).map (fun p => p.1.labNumber)) = true →
      (processDataframe ref db rows).1.reports
        = db.reports ++ (survivingBatch ref db rows).map Prod.fst ∧
      (processDataframe ref db rows).1.analyses
        = db.analyses ++ (survivingBatch ref db rows).map
            (fun p => ⟨p.1.labNumber, p.2⟩) ∧
      (processDataframe ref db rows).2.created
        = (survivingBatch ref db rows).length ∧
      (processDataframe ref db rows).1.reports.length
        = db.reports.length + (processDataframe ref db rows).2.created ∧
      (processDataframe ref db rows).1.analyses.length
        = db.analyses.length + (processDataframe ref db rows).2.created ∧
      bulkErrorCount (processDataframe ref db rows).2.errors = 0 ∧
      (∀ a ∈ (survivingBatch ref db rows).map
          (fun p => (⟨p.1.labNumber, p.2⟩ : LabAnalysis)),
        ∃! r, r ∈ (survivingBatch ref db rows).map Prod.fst ∧
          r.labNumber = a.reportLab)) ∧
    (survivingBatch ref db rows ≠ [] →
      bulkInsertOk db
        ((survivingBatch ref db rows).map (fun p => p.1.labNumber)) = false →
      (processDataframe ref db rows).1 = db ∧
      (processDataframe ref db rows).2.created = 0 ∧
      bulkErrorCount (processDataframe ref db rows).2.errors = 1) := by
  rw [processDataframe_eq ref db rows]
  constructor
  · intro hok
    have hpair : ∀ a ∈ (survivingBatch ref db rows).map
        (fun p => (⟨p.1.labNumber, p.2⟩ : LabAnalysis)),
        ∃! r, r ∈ (survivingBatch ref db rows).map Prod.fst ∧
          r.labNumber = a.reportLab := by
      intro a ha
      obtain ⟨hnd, -⟩ := bulkInsertOk_spec hok
      obtain ⟨p, hp, rfl⟩ := List.mem_map.mp ha
      refine ⟨p.1, ⟨List.mem_map_of_mem _ hp, rfl⟩, ?_⟩
      rintro r ⟨hr, hlab⟩
      obtain ⟨q, hq, rfl⟩ := List.mem_map.mp hr
      have hnd2 : ((survivingBatch ref db rows).map
          (fun p => p.1.labNumber)).Nodup := hnd
      exact congrArg Prod.fst (List.inj_on_of_nodup_map hnd2 hq hp hlab)
    have h0 := bulkErrorCount_processRows ref 3 (survivorRows db rows)
    by_cases hb : survivingBatch ref db rows = []
    · rw [hb]
      refine ⟨by simp [persistBatch], by simp [persistBatch],
        by simp [persistBatch], by simp [persistBatch],
        by simp [persistBatch], ?_, by simp⟩
      simpa [persistBatch, bulkErrorCount] using h0
    · unfold persistBatch
      rw [if_neg hb, if_pos hok]
      refine ⟨rfl, rfl, rfl, by simp, by simp, ?_, hpair⟩
      simpa [bulkErrorCount] using h0
  · intro hb hfail
    have h0 := bulkErrorCount_processRows ref 3 (survivorRows db rows)
    unfold persistBatch
    rw [if_neg hb, if_neg (by rw [hfail]; exact Bool.false_ne_true)]
    refine ⟨rfl, rfl, ?_⟩
    unfold bulkErrorCount at h0 ⊢
    rw [List.filter_append, List.length_append, h0]
    simp [bulkError]

/-! ### Stage lemmas for the incremental filter -/

theorem watermarkStage_none {db : ReportsDB} (rows : List Row)
    (h : maxSampleDate db = none) : watermarkStage db rows = rows := by
  unfold watermarkStage
  rw [h]

theorem mem_watermarkStage {db : ReportsDB} {wm : PyDate}
    (h : maxSampleDate db = some wm) (rows : List Row) (r : Row) :
    r ∈ watermarkStage db rows ↔ r ∈ rows ∧
      ∃ dt, parsePolarsDate (cellAt r 7) = some dt ∧ dateLtB wm dt = true := by
  unfold watermarkStage
  rw [h]
  simp only [List.mem_filter, watermarkKeep]
  cases hp : parsePolarsDate (cellAt r 7) <;> simp [hp]

theorem filterDuplicates_nil (rows : List Row) :
    filterDuplicates [] rows = rows := rfl

theorem mem_filterDuplicates {existing : List String} (h : existing ≠ [])
    (rows : List Row) (r : Row) :
    r ∈ filterDuplicates existing rows ↔ r ∈ rows ∧
      ∃ s, cellAt r 1 = some s ∧ existing.contains s = false := by
  unfold filterDuplicates
  rw [if_neg h]
  simp only [List.mem_filter, dupKeep]
  cases hc : cellAt r 1 <;> simp [hc]

theorem mem_existingLabNumbers {db : ReportsDB} {labs : List String}
    {s : String} :
    s ∈ existingLabNumbers db labs ↔ s ∈ dbLabNumbers db ∧ s ∈ labs := by
  unfold existingLabNumbers
  split
  · next hl =>
    subst hl
    simp
  · simp [List.mem_dedup, List.mem_filter, List.contains, List.elem_eq_mem]

theorem nodup_existingLabNumbers (db : ReportsDB) (labs : List String) :
    (existingLabNumbers db labs).Nodup := by
  unfold existingLabNumbers
  split
  · exact List.nodup_nil
  · exact List.nodup_dedup _

theorem survivorRows_subset {db : ReportsDB} {rows : List Row} {r : Row}
    (h : r ∈ survivorRows db rows) :
    r ∈ (rows.filter rowNonEmpty).filter headerKeep := by
  unfold survivorRows filterDuplicates at h
  split at h
  · exact h
  · exact (List.mem_filter.mp h).1

theorem survivorRows_props {db : ReportsDB} {rows : List Row} {r : Row}
    (h : r ∈ survivorRows db rows) :
    rowNonEmpty r = true ∧ headerKeep r = true := by
  have h2 := List.mem_filter.mp (survivorRows_subset h)
  exact ⟨(List.mem_filter.mp h2.1).2, h2.2⟩

theorem survivorRows_filter_self (db : ReportsDB) (rows : List Row) :
    ((survivorRows db rows).filter rowNonEmpty).filter headerKeep
      = survivorRows db rows := by
  have h1 : (survivorRows db rows).filter rowNonEmpty = survivorRows db rows :=
    List.filter_eq_self.mpr (fun a ha => (survivorRows_props ha).1)
  rw [h1]
  exact List.filter_eq_self.mpr (fun a ha => (survivorRows_props ha).2)

theorem existing_of_survivors (db : ReportsDB) (rows : List Row) :
    existingLabNumbers db (extractLabNumbers (survivorRows db rows)) = [] := by
  by_cases hex : existingLabNumbers db (extractLabNumbers
      ((rows.filter rowNonEmpty).filter headerKeep)) = []
  · unfold survivorRows
    rw [hex, filterDuplicates_nil]
    exact hex
  · rw [List.eq_nil_iff_forall_not_mem]
    intro s hs
    obtain ⟨hdb, hlab⟩ := mem_existingLabNumbers.mp hs
    unfold extractLabNumbers at hlab
    obtain ⟨hmem, hcond⟩ := List.mem_filter.mp hlab
    obtain ⟨r, hr, hcell⟩ := List.mem_filterMap.mp hmem
    unfold survivorRows at hr
    rw [mem_filterDuplicates hex] at hr
    obtain ⟨hr2, s2, hcell2, hcont⟩ := hr
    rw [hcell] at hcell2
    cases hcell2
    have hsin : s ∈ existingLabNumbers db (extractLabNumbers
        ((rows.filter rowNonEmpty).filter headerKeep)) := by
      rw [mem_existingLabNumbers]
      refine ⟨hdb, ?_⟩
      unfold extractLabNumbers
      exact List.mem_filter.mpr ⟨List.mem_filterMap.mpr ⟨r, hr2, hcell⟩, hcond⟩
    simp only [List.contains, List.elem_eq_mem, decide_eq_false_iff_not]
      at hcont
    exact hcont hsin

theorem survivorRows_idem (db : ReportsDB) (rows : List Row) :
    survivorRows db (survivorRows db rows) = survivorRows db rows := by
  show filterDuplicates
      (existingLabNumbers db (extractLabNumbers
        (((survivorRows db rows).filter rowNonEmpty).filter headerKeep)))
      (((survivorRows db rows).filter rowNonEmpty).filter headerKeep)
    = survivorRows db rows
  rw [survivorRows_filter_self, existing_of_survivors, filterDuplicates_nil]

/-- Processing a batch gives the same storage, created count and error
list as processing only its surviving rows; the surviving rows carry no
duplicates, so their run skips nothing. -/
theorem processDataframe_factor (ref : RefDB) (db : ReportsDB)
    (rows : List Row) :
    (processDataframe ref db rows).1
      = (processDataframe ref db (survivorRows db rows)).1 ∧
    (processDataframe ref db rows).2.created
      = (processDataframe ref db (survivorRows db rows)).2.created ∧
    (processDataframe ref db rows).2.errors
      = (processDataframe ref db (survivorRows db rows)).2.errors ∧
    (processDataframe ref db (survivorRows db rows)).2.skipped = 0 := by
  rw [processDataframe_eq ref db rows,
    processDataframe_eq ref db (survivorRows db rows)]
  simp only [survivingBatch, survivorRows_idem, survivorRows_filter_self,
    existing_of_survivors, List.length_nil, and_self, and_true, true_and]

/-- **C3 (counterexample).** With `LAB-001` already stored and an incoming
batch of two rows both bearing `LAB-001`, both rows are discarded by the
duplicate-key stage but the run reports `skipped = 1`, not `2`: `skipped`
counts the distinct already-existing lab numbers, not the discarded
rows. -/
theorem c3_incremental_filter_cex :
    dbLabNumbers c3db = ["LAB-001"] ∧
    cellAt (minimalRow "LAB-001" "05/01/2025") 1 = some "LAB-001" ∧
    cellAt (minimalRow "LAB-001" "06/01/2025") 1 = some "LAB-001" ∧
    survivorRows c3db
      [minimalRow "LAB-001" "05/01/2025",
       minimalRow "LAB-001" "06/01/2025"] = [] ∧
    (processReportTask ⟨[], [], []⟩ c3db
      [minimalRow "LAB-001" "05/01/2025",
       minimalRow "LAB-001" "06/01/2025"]).2.skipped = 1 ∧
    (processReportTask ⟨[], [], []⟩ c3db
      [minimalRow "LAB-001" "05/01/2025",
       minimalRow "LAB-001" "06/01/2025"]).2.created = 0 ∧
    (processReportTask ⟨[], [], []⟩ c3db
      [minimalRow "LAB-001" "05/01/2025",
       minimalRow "LAB-001" "06/01/2025"]).2.errors = [] ∧
    (processReportTask ⟨[], [], []⟩ c3db
      [minimalRow "LAB-001" "05/01/2025",
       minimalRow "LAB-001" "06/01/2025"]).1 = c3db := by
  exact ⟨by decide, by decide, by decide, by decide, by decide, by decide,
    by decide, by decide⟩

/-- **C3 (amended).** The watermark stage is skipped when no stored report
has a sample date and otherwise retains exactly the rows whose parsed
sample date is strictly greater than the stored maximum; the
duplicate-key stage is skipped when no incoming lab number already exists
and otherwise retains exactly the rows whose lab-number cell is present
and not among the already-stored incoming lab numbers (a row with a null
lab-number cell is dropped too); the skipped count equals the number of
distinct already-stored lab numbers among the incoming rows — which can
be smaller than the number of discarded rows; and discarded rows are not
persisted, contribute no errors and do not influence the processing of
the remaining rows: the run's storage, created count and errors equal
those of a run over only the surviving rows, which itself skips
nothing. -/
theorem c3_incremental_filter_amended (ref : RefDB) (db : ReportsDB)
    (rows : List Row) (wm : PyDate) (r : Row) (labs : List String)
    (s : String) :
    (maxSampleDate db = none → watermarkStage db rows = rows) ∧
    (maxSampleDate db = some wm →
      (r ∈ watermarkStage db rows ↔ r ∈ rows ∧
        ∃ dt, parsePolarsDate (cellAt r 7) = some dt ∧
          dateLtB wm dt = true)) ∧
    (s ∈ existingLabNumbers db labs ↔ s ∈ dbLabNumbers db ∧ s ∈ labs) ∧
    (existingLabNumbers db labs).Nodup ∧
    filterDuplicates [] rows = rows ∧
    (existingLabNumbers db labs ≠ [] →
      (r ∈ filterDuplicates (existingLabNumbers db labs) rows ↔ r ∈ rows ∧
        ∃ s2, cellAt r 1 = some s2 ∧
          (existingLabNumbers db labs).contains s2 = false)) ∧
    (processDataframe ref db rows).2.skipped
      = (existingLabNumbers db (extractLabNumbers
          ((rows.filter rowNonEmpty).filter headerKeep))).length ∧
    (processDataframe ref db rows).1
      = (processDataframe ref db (survivorRows db rows)).1 ∧
    (processDataframe ref db rows).2.created
      = (processDataframe ref db (survivorRows db rows)).2.created ∧
    (processDataframe ref db rows).2.errors
      = (processDataframe ref db (survivorRows db rows)).2.errors ∧
    (processDataframe ref db (survivorRows db rows)).2.skipped = 0 := by
  obtain ⟨hf1, hf2, hf3, hf4⟩ := processDataframe_factor ref db rows
  refine ⟨watermarkStage_none rows, fun h => mem_watermarkStage h rows r,
    mem_existingLabNumbers, nodup_existingLabNumbers db labs,
    filterDuplicates_nil rows,
    fun h => mem_filterDuplicates h rows r, ?_, hf1, hf2, hf3, hf4⟩
  rw [processDataframe_eq ref db rows]

theorem c3_incremental_filter_amended_witness :
    maxSampleDate datedDb = some ⟨2025, 11, 30⟩ ∧
    minimalRow "LAB-003" "01/12/2025" ∈ watermarkStage datedDb
      [minimalRow "LAB-003" "29/11/2025", minimalRow "LAB-003" "01/12/2025"] ∧
    minimalRow "LAB-003" "01/12/2025" ∈ filterDuplicates
      (existingLabNumbers datedDb ["LAB-002"])
      [minimalRow "LAB-002" "01/12/2025",
       minimalRow "LAB-003" "01/12/2025"] := by
  have h1 := c3_incremental_filter_amended ⟨[], [], []⟩ datedDb
    [minimalRow "LAB-003" "29/11/2025", minimalRow "LAB-003" "01/12/2025"]
    ⟨2025, 11, 30⟩ (minimalRow "LAB-003" "01/12/2025") ["LAB-002"] "LAB-002"
  have h2 := c3_incremental_filter_amended ⟨[], [], []⟩ datedDb
    [minimalRow "LAB-002" "01/12/2025", minimalRow "LAB-003" "01/12/2025"]
    ⟨2025, 11, 30⟩ (minimalRow "LAB-003" "01/12/2025") ["LAB-002"] "LAB-002"
  refine ⟨by decide, ?_, ?_⟩
  · exact (h1.2.1 (by decide)).mpr
      ⟨by decide, ⟨2025, 12, 1⟩, by decide, by decide⟩
  · exact (h2.2.2.2.2.2.1 (by decide)).mpr
      ⟨by decide, "LAB-003", by decide, by decide⟩

theorem c2_bulk_all_or_nothing_witness :
    (processDataframe ⟨[], [], []⟩ emptyReportsDB
        [minimalRow "LAB-001" "18/12/2025"]).2.created
      = (survivingBatch ⟨[], [], []⟩ emptyReportsDB
          [minimalRow "LAB-001" "18/12/2025"]).length ∧
    bulkErrorCount (processDataframe ⟨[], [], []⟩ emptyReportsDB
        [minimalRow "LAB-001" "18/12/2025"]).2.errors = 0 ∧
    (processDataframe ⟨[], [], []⟩ emptyReportsDB
        [minimalRow "LAB-001" "18/12/2025",
         minimalRow "LAB-001" "19/12/2025"]).1 = emptyReportsDB ∧
    (processDataframe ⟨[], [], []⟩ emptyReportsDB
        [minimalRow "LAB-001" "18/12/2025",
         minimalRow "LAB-001" "19/12/2025"]).2.created = 0 ∧
    bulkErrorCount (processDataframe ⟨[], [], []⟩ emptyReportsDB
        [minimalRow "LAB-001" "18/12/2025",
         minimalRow "LAB-001" "19/12/2025"]).2.errors = 1 := by
  have hs := (c2_bulk_all_or_nothing ⟨[], [], []⟩ emptyReportsDB
    [minimalRow "LAB-001" "18/12/2025"]).1 (by decide)
  have hf := (c2_bulk_all_or_nothing ⟨[], [], []⟩ emptyReportsDB
    [minimalRow "LAB-001" "18/12/2025",
     minimalRow "LAB-001" "19/12/2025"]).2 (by decide) (by decide)
  exact ⟨hs.2.2.1, hs.2.2.2.2.2.1, hf.1, hf.2.1, hf.2.2⟩

/-- **C10.** In an incremental run (the watermark exists), a row whose
sample-date cell fails to parse is removed by the watermark filter; if
every row of the batch is such a row, the run returns success with
created = 0, skipped = 0 and no errors, and leaves storage untouched.
On a first load against an empty database the watermark stage is
bypassed, and an otherwise valid row with an unparseable sample-date cell
is persisted as one created report whose `sample_date` is null. -/
theorem c10_unparseable_dates (ref : RefDB) (db : ReportsDB)
    (rows : List Row) (wm : PyDate) (r : Row) (lab dateStr : String) :
    (maxSampleDate db = some wm → r ∈ rows →
      parsePolarsDate (cellAt r 7) = none → r ∉ watermarkStage db rows) ∧
    (maxSampleDate db = some wm →
      (∀ r2 ∈ rows, parsePolarsDate (cellAt r2 7) = none) →
      processReportTask ref db rows
        = (db, ⟨"success", 0, 0, [], 0, rows.length, 0⟩)) ∧
    (pyParseDate (some dateStr) = none → ¬(lab = "") →
      (processReportTask ref emptyReportsDB
        [minimalRow lab dateStr]).2.status = "success" ∧
      (processReportTask ref emptyReportsDB
        [minimalRow lab dateStr]).2.created = 1 ∧
      (processReportTask ref emptyReportsDB
        [minimalRow lab dateStr]).2.skipped = 0 ∧
      (processReportTask ref emptyReportsDB
        [minimalRow lab dateStr]).2.errors = [] ∧
      (processReportTask ref emptyReportsDB
        [minimalRow lab dateStr]).1.reports.map (fun rep => rep.labNumber)
        = [lab] ∧
      (processReportTask ref emptyReportsDB
        [minimalRow lab dateStr]).1.reports.map (fun rep => rep.sampleDate)
        = [none] ∧
      (processReportTask ref emptyReportsDB
        [minimalRow lab dateStr]).1.analyses.length = 1) := by
  refine ⟨?_, ?_, ?_⟩
  · intro hwm hr hparse hmem
    rw [mem_watermarkStage hwm rows r] at hmem
    obtain ⟨-, dt, hdt, -⟩ := hmem
    rw [hparse] at hdt
    cases hdt
  · intro hwm hall
    have hfil : watermarkStage db rows = [] := by
      unfold watermarkStage
      rw [hwm]
      apply List.filter_eq_nil_iff.mpr
      intro a ha
      simp [watermarkKeep, hall a ha]
    unfold processReportTask
    rw [hfil]
    simp
  · intro hds hlab
    have htr : pyTruthy (some lab) = true := by
      simp [pyTruthy, hlab]
    have hc1 : cellAt (minimalRow lab dateStr) 1 = some lab := rfl
    have hc2 : cellAt (minimalRow lab dateStr) 2 = none := rfl
    have hc7 : cellAt (minimalRow lab dateStr) 7 = some dateStr := rfl
    have hrow : rowNonEmpty (minimalRow lab dateStr) = true := rfl
    have hhk : headerKeep (minimalRow lab dateStr) = true := rfl
    have hex0 : ∀ l, existingLabNumbers emptyReportsDB l = [] := by
      intro l
      unfold existingLabNumbers
      split
      · rfl
      · rfl
    have hsv : survivorRows emptyReportsDB [minimalRow lab dateStr]
        = [minimalRow lab dateStr] := by
      unfold survivorRows
      rw [hex0, filterDuplicates_nil]
      simp [List.filter_cons, hrow, hhk]
    have hrd : (extractRowData (minimalRow lab dateStr)).1.labNumber
        = some lab := by
      simp [extractRowData, hc1]
    have hon : (extractRowData (minimalRow lab dateStr)).1.organizationName
        = none := by
      simp [extractRowData, hc2]
    have hmn : (extractRowData (minimalRow lab dateStr)).1.machineName
        = none := by
      simp [extractRowData, cellAt, minimalRow]
    have hcn : (extractRowData (minimalRow lab dateStr)).1.componentName
        = none := by
      simp [extractRowData, cellAt, minimalRow]
    have hsd : (extractRowData (minimalRow lab dateStr)).1.sampleDate
        = none := by
      simp [extractRowData, hc7, hds]
    have hprow : processRow ref 3 (minimalRow lab dateStr)
        = .ok (mkReport (extractRowData (minimalRow lab dateStr)).1
                 none none none,
               (extractRowData (minimalRow lab dateStr)).2) := by
      simp only [processRow, hrd, hon, hmn, hcn, htr, Bool.not_true,
        Bool.false_eq_true, if_false]
      simp [resolveOrganization, resolveMachine, resolveComponent, pyTruthy]
    have hrows : processRows ref 3 [minimalRow lab dateStr]
        = ([(mkReport (extractRowData (minimalRow lab dateStr)).1
              none none none,
             (extractRowData (minimalRow lab dateStr)).2)], []) := by
      simp [processRows, hprow]
    have hlabrep : (mkReport (extractRowData (minimalRow lab dateStr)).1
        none none none).labNumber = lab := by
      simp [mkReport, hrd]
    have hsdrep : (mkReport (extractRowData (minimalRow lab dateStr)).1
        none none none).sampleDate = none := by
      simp [mkReport, hsd]
    have hok : bulkInsertOk emptyReportsDB
        ([(mkReport (extractRowData (minimalRow lab dateStr)).1
            none none none,
           (extractRowData (minimalRow lab dateStr)).2)].map
          (fun p => p.1.labNumber)) = true := by
      simp [bulkInsertOk, labsNodupB, dbLabNumbers, emptyReportsDB]
    have hpd := processDataframe_eq ref emptyReportsDB
      [minimalRow lab dateStr]
    rw [show survivingBatch ref emptyReportsDB [minimalRow lab dateStr]
        = [(mkReport (extractRowData (minimalRow lab dateStr)).1
             none none none,
            (extractRowData (minimalRow lab dateStr)).2)] by
      unfold survivingBatch
      rw [hsv, hrows]] at hpd
    rw [hsv, hrows] at hpd
    unfold persistBatch at hpd
    rw [if_neg (by simp), if_pos hok] at hpd
    have hout : processReportTask ref emptyReportsDB [minimalRow lab dateStr]
        = ((processDataframe ref emptyReportsDB [minimalRow lab dateStr]).1,
           ⟨"success",
            (processDataframe ref emptyReportsDB
              [minimalRow lab dateStr]).2.created, 0,
            [], 0, 1, 1⟩) := by
      unfold processReportTask
      rw [@watermarkStage_none emptyReportsDB [minimalRow lab dateStr] rfl]
      rw [if_neg (by simp)]
      rw [hpd]
      simp [hex0]
    rw [hout, hpd]
    simp [hlabrep, hsdrep, hex0, emptyReportsDB]

theorem c10_unparseable_dates_witness :
    (minimalRow "LAB-009" "garbage" ∉ watermarkStage datedDb
      [minimalRow "LAB-009" "garbage"]) ∧
    processReportTask ⟨[], [], []⟩ datedDb [minimalRow "LAB-009" "garbage"]
      = (datedDb, ⟨"success", 0, 0, [], 0, 1, 0⟩) ∧
    (processReportTask ⟨[], [], []⟩ emptyReportsDB
      [minimalRow "LAB-001" "garbage"]).2.created = 1 ∧
    (processReportTask ⟨[], [], []⟩ emptyReportsDB
      [minimalRow "LAB-001" "garbage"]).1.reports.map
        (fun rep => rep.sampleDate) = [none] := by
  have h := c10_unparseable_dates ⟨[], [], []⟩ datedDb
    [minimalRow "LAB-009" "garbage"] ⟨2025, 11, 30⟩
    (minimalRow "LAB-009" "garbage") "LAB-001" "garbage"
  have h3 := (c10_unparseable_dates ⟨[], [], []⟩ emptyReportsDB []
    ⟨2025, 11, 30⟩ [] "LAB-001" "garbage").2.2 (by decide) (by decide)
  refine ⟨h.1 (by decide) (by decide) (by decide),
    h.2.1 (by decide) ?_, h3.2.1, h3.2.2.2.2.2.1⟩
  intro r2 hr2
  rcases List.mem_singleton.mp hr2 with rfl
  decide
